import Mathlib

/-!
# SeaBIOS system clock services (src/clock.c)

A shallow embedding of the 16bit clock code: the BIOS data area fields it
uses, the CMOS RTC registers, the register frame handed to the INT 1Ah /
INT 15h handlers, and the two interrupt handlers (INT 08h, INT 70h).

Machine integers are natural numbers; every store into a `u8`, `u16` or
`u32` location reduces modulo the width of the location.
-/

set_option maxRecDepth 100000

namespace Clock

/-! ## Data model -/

/-- Modelled from the spec: the register indices of cmos.h are not among the
sources.  The RTC registers named in clock.c are kept apart by name. -/
inductive CmosReg where
  | CMOS_RTC_SECONDS
  | CMOS_RTC_SECONDS_ALARM
  | CMOS_RTC_MINUTES
  | CMOS_RTC_MINUTES_ALARM
  | CMOS_RTC_HOURS
  | CMOS_RTC_HOURS_ALARM
  | CMOS_RTC_DAY_MONTH
  | CMOS_RTC_MONTH
  | CMOS_RTC_YEAR
  | CMOS_STATUS_A
  | CMOS_STATUS_B
  | CMOS_STATUS_C
  | CMOS_STATUS_D
  | CMOS_CENTURY
  deriving DecidableEq

open CmosReg

/-- Calls that leave clock.c: interrupt masking, the end-of-interrupt
acknowledgements, the floppy tick, the user hooks reached through
`call16_int` (INT 1Ch, INT 4Ah) and the timer set-up.  They are recorded in
program order; what the code behind them does to the state below is outside
this file and is not part of the model. -/
inductive Event where
  | irq_enable
  | irq_disable
  | eoi_pic1
  | eoi_pic2
  | floppy_tick
  | cpu_relax
  | call16_int (nr : Nat)
  | pit_setup
  | enable_hwirq (irq : Nat)
  deriving DecidableEq

/-- The BIOS data area fields read and written by clock.c
(`GET_BDA` / `SET_BDA`). -/
structure Bda where
  timer_counter : Nat
  timer_rollover : Nat
  rtc_wait_flag : Nat
  ptr_user_wait_complete_flag : Nat
  user_wait_timeout : Nat
  deriving DecidableEq

/-- Modelled from the spec: bregs.h is not among the sources.  The caller's
register frame: the byte halves of AX, BX, CX, DX, the segment register ES and
the carry bit (F_CF) of the flags word, which carries the result convention
of section 6 (carry set on failure). -/
structure Bregs where
  al : Nat
  ah : Nat
  bl : Nat
  bh : Nat
  cl : Nat
  ch : Nat
  dl : Nat
  dh : Nat
  es : Nat
  cf : Bool
  deriving DecidableEq

/-- The state the clock code runs on.  `cmos` holds the RTC registers the
code stores to, `irq_flags` the fired-source flags the RTC has latched in
Status Register C since it was last read, `mem` the caller-owned memory
reached through far pointers (segment, offset), `statusA` the successive
values the hardware returns for reads of Status Register A and `polls` how
many of them have been consumed, `trace` the calls that left the file. -/
structure Machine where
  bda : Bda
  cmos : CmosReg → Nat
  irq_flags : Nat
  mem : Nat → Nat → Nat
  statusA : Nat → Nat
  polls : Nat
  trace : List Event

/-! ## Constants -/

def RTC_A_UIP : Nat := 0x80
def RTC_B_SET : Nat := 0x80
def RTC_B_PIE : Nat := 0x40
def RTC_B_AIE : Nat := 0x20
def RTC_B_UIE : Nat := 0x10

def RET_ECLOCKINUSE : Nat := 0x83

/-- Modelled from the spec: biosvar.h is not among the sources.  The
`PendingWait.active` flag of section 3 is bit 0 of `rtc_wait_flag`. -/
def RWS_WAIT_PENDING : Nat := 1

/-- Modelled from the spec: the value of the `Unsupported` status of section 7
is defined in a header that is not among the sources; it is the BIOS
"function not supported" code, distinct from `ClockInUse`. -/
def RET_EUNSUPPORTED : Nat := 0x86

/-- Complement of a flag mask in C `int` arithmetic, as applied to a byte. -/
def bitnot (mask : Nat) : Nat := 0xFFFFFFFF - mask

/-! ## Primitive accesses -/

def Machine.log (m : Machine) (e : Event) : Machine :=
  { m with trace := m.trace ++ [e] }

/-- Modelled from the spec: cmos.h is not among the sources.  A read of a
CMOS register returns the stored byte.  A read of Status Register A returns
the next hardware reading.  A read of Status Register C returns the latched
fired-source flags and clears them (section 3: cleared on read). -/
def inb_cmos (reg : CmosReg) (m : Machine) : Nat × Machine :=
  match reg with
  | CMOS_STATUS_A => (m.statusA m.polls % 256, { m with polls := m.polls + 1 })
  | CMOS_STATUS_C => (m.irq_flags % 256, { m with irq_flags := 0 })
  | r => (m.cmos r % 256, m)

/-- Modelled from the spec: cmos.h is not among the sources.  A write stores
the byte into the register. -/
def outb_cmos (val : Nat) (reg : CmosReg) (m : Machine) : Machine :=
  { m with cmos := fun r => if r = reg then val % 256 else m.cmos r }

/-- Modelled from the spec: farptr.h is not among the sources.  Read of a byte
through a far pointer. -/
def GET_FARVAR (seg off : Nat) (m : Machine) : Nat :=
  m.mem seg off % 256

/-- Modelled from the spec: farptr.h is not among the sources.  Write of a
byte through a far pointer. -/
def SET_FARVAR (seg off val : Nat) (m : Machine) : Machine :=
  { m with mem := fun s o => if s = seg ∧ o = off then val % 256 else m.mem s o }

/-- Modelled from the spec: bregs.h is not among the sources.  Success clears
the carry flag. -/
def set_success (regs : Bregs) : Bregs := { regs with cf := false }

/-- Modelled from the spec: bregs.h is not among the sources.  Failure sets
the carry flag. -/
def set_fail (regs : Bregs) : Bregs := { regs with cf := true }

/-- Modelled from the spec: bregs.h is not among the sources.  Failure with a
status code: the code goes to AH and the carry flag is set. -/
def set_code_fail (regs : Bregs) (code : Nat) : Bregs :=
  { regs with ah := code % 256, cf := true }

/-- The 16 bit register CX as seen through `regs->cx`. -/
def Bregs.cx (regs : Bregs) : Nat := (regs.ch % 256) * 256 + regs.cl % 256

/-- The 16 bit register DX as seen through `regs->dx`. -/
def Bregs.dx (regs : Bregs) : Nat := (regs.dh % 256) * 256 + regs.dl % 256

/-- The 16 bit register BX as seen through `regs->bx`. -/
def Bregs.bx (regs : Bregs) : Nat := (regs.bh % 256) * 256 + regs.bl % 256

/-- Store through `regs->cx`: the low byte goes to CL, the high byte to CH. -/
def Bregs.set_cx (regs : Bregs) (val : Nat) : Bregs :=
  { regs with cl := val % 256, ch := (val / 256) % 256 }

/-- Store through `regs->dx`: the low byte goes to DL, the high byte to DH. -/
def Bregs.set_dx (regs : Bregs) (val : Nat) : Bregs :=
  { regs with dl := val % 256, dh := (val / 256) % 256 }

/-! ## Init -/

def bcd2bin (val : Nat) : Nat :=
  ((val % 256 &&& 0xf) + ((val % 256) >>> 4) * 10) % 4294967296

def timer_setup (m : Machine) : Machine :=
  let m := m.log Event.pit_setup
  let r := inb_cmos CMOS_RTC_SECONDS m
  let seconds := bcd2bin r.1
  let ticks := ((seconds * 18206507) % 4294967296) / 1000000
  let r := inb_cmos CMOS_RTC_MINUTES r.2
  let minutes := bcd2bin r.1
  let ticks := (ticks + ((minutes * 10923904) % 4294967296) / 10000) % 4294967296
  let r := inb_cmos CMOS_RTC_HOURS r.2
  let hours := bcd2bin r.1
  let ticks := (ticks + ((hours * 65543427) % 4294967296) / 1000) % 4294967296
  let m := r.2
  let m := { m with bda := { m.bda with timer_counter := ticks } }
  let m := { m with bda := { m.bda with timer_rollover := 0 } }
  let m := m.log (Event.enable_hwirq 0)
  m.log (Event.enable_hwirq 8)

def init_rtc (m : Machine) : Machine :=
  let m := outb_cmos 0x26 CMOS_STATUS_A m
  let m := outb_cmos 0x02 CMOS_STATUS_B m
  let m := (inb_cmos CMOS_STATUS_C m).2
  (inb_cmos CMOS_STATUS_D m).2

/-! ## Standard clock functions -/

/-- The loop of `rtc_updating`, entered with the value `count` has before the
`--count` of the loop test. -/
def rtc_updating_loop : Nat → Machine → Nat × Machine
  | 0, m => (1, m)
  | count + 1, m =>
    if count ≠ 0 then
      let r := inb_cmos CMOS_STATUS_A m
      if r.1 &&& 0x80 = 0 then (0, r.2)
      else rtc_updating_loop count r.2
    else (1, m)

def rtc_updating (m : Machine) : Nat × Machine :=
  rtc_updating_loop 25000 m

def handle_1a00 (regs : Bregs) (m : Machine) : Bregs × Machine :=
  let ticks := m.bda.timer_counter % 4294967296
  let regs := regs.set_cx (ticks >>> 16)
  let regs := regs.set_dx ticks
  let regs := { regs with al := m.bda.timer_rollover % 256 }
  let m := { m with bda := { m.bda with timer_rollover := 0 } }
  (set_success regs, m)

def handle_1a01 (regs : Bregs) (m : Machine) : Bregs × Machine :=
  let ticks := (regs.cx * 65536 ||| regs.dx) % 4294967296
  let m := { m with bda := { m.bda with timer_counter := ticks } }
  let m := { m with bda := { m.bda with timer_rollover := 0 } }
  let regs := { regs with ah := 0 }
  (set_success regs, m)

def handle_1a02 (regs : Bregs) (m : Machine) : Bregs × Machine :=
  let u := rtc_updating m
  if u.1 ≠ 0 then (set_fail regs, u.2)
  else
    let m := u.2
    let r := inb_cmos CMOS_RTC_SECONDS m
    let regs := { regs with dh := r.1 }
    let r := inb_cmos CMOS_RTC_MINUTES r.2
    let regs := { regs with cl := r.1 }
    let r := inb_cmos CMOS_RTC_HOURS r.2
    let regs := { regs with ch := r.1 }
    let r := inb_cmos CMOS_STATUS_B r.2
    let regs := { regs with dl := r.1 &&& 0x01 }
    let regs := { regs with ah := 0 }
    let regs := { regs with al := regs.ch }
    (set_success regs, r.2)

def handle_1a03 (regs : Bregs) (m : Machine) : Bregs × Machine :=
  let u := rtc_updating m
  let m := if u.1 ≠ 0 then init_rtc u.2 else u.2
  let m := outb_cmos regs.dh CMOS_RTC_SECONDS m
  let m := outb_cmos regs.cl CMOS_RTC_MINUTES m
  let m := outb_cmos regs.ch CMOS_RTC_HOURS m
  let r := inb_cmos CMOS_STATUS_B m
  let val8 := ((r.1 &&& 0x60) ||| 0x02 ||| (regs.dl &&& 0x01)) % 256
  let m := outb_cmos val8 CMOS_STATUS_B r.2
  let regs := { regs with ah := 0 }
  let regs := { regs with al := val8 }
  (set_success regs, m)

def handle_1a04 (regs : Bregs) (m : Machine) : Bregs × Machine :=
  let regs := { regs with ah := 0 }
  let u := rtc_updating m
  if u.1 ≠ 0 then (set_fail regs, u.2)
  else
    let m := u.2
    let r := inb_cmos CMOS_RTC_YEAR m
    let regs := { regs with cl := r.1 }
    let r := inb_cmos CMOS_RTC_MONTH r.2
    let regs := { regs with dh := r.1 }
    let r := inb_cmos CMOS_RTC_DAY_MONTH r.2
    let regs := { regs with dl := r.1 }
    let r := inb_cmos CMOS_CENTURY r.2
    let regs := { regs with ch := r.1 }
    let regs := { regs with al := regs.ch }
    (set_success regs, r.2)

def handle_1a05 (regs : Bregs) (m : Machine) : Bregs × Machine :=
  let u := rtc_updating m
  if u.1 ≠ 0 then (set_fail regs, init_rtc u.2)
  else
    let m := u.2
    let m := outb_cmos regs.cl CMOS_RTC_YEAR m
    let m := outb_cmos regs.dh CMOS_RTC_MONTH m
    let m := outb_cmos regs.dl CMOS_RTC_DAY_MONTH m
    let m := outb_cmos regs.ch CMOS_CENTURY m
    let r := inb_cmos CMOS_STATUS_B m
    let val8 := (r.1 &&& bitnot RTC_B_SET) % 256
    let m := outb_cmos val8 CMOS_STATUS_B r.2
    let regs := { regs with ah := 0 }
    let regs := { regs with al := val8 }
    (set_success regs, m)

def handle_1a06 (regs : Bregs) (m : Machine) : Bregs × Machine :=
  let r := inb_cmos CMOS_STATUS_B m
  let val8 := r.1
  let m := r.2
  let regs := { regs with al := 0, ah := 0 }
  if val8 &&& 0x20 ≠ 0 then (set_fail regs, m)
  else
    let u := rtc_updating m
    let m := if u.1 ≠ 0 then init_rtc u.2 else u.2
    let m := outb_cmos regs.dh CMOS_RTC_SECONDS_ALARM m
    let m := outb_cmos regs.cl CMOS_RTC_MINUTES_ALARM m
    let m := outb_cmos regs.ch CMOS_RTC_HOURS_ALARM m
    let m := outb_cmos ((val8 &&& bitnot RTC_B_SET) ||| RTC_B_AIE) CMOS_STATUS_B m
    (set_success regs, m)

def handle_1a07 (regs : Bregs) (m : Machine) : Bregs × Machine :=
  let r := inb_cmos CMOS_STATUS_B m
  let val8 := r.1
  let m := outb_cmos (val8 &&& bitnot (RTC_B_SET ||| RTC_B_AIE)) CMOS_STATUS_B r.2
  let regs := { regs with ah := 0 }
  let regs := { regs with al := val8 }
  (set_success regs, m)

/-- INT 08h system timer interrupt. -/
def handle_08 (m : Machine) : Machine :=
  let m := m.log Event.irq_enable
  let m := m.log Event.floppy_tick
  let counter := m.bda.timer_counter % 4294967296
  let counter := (counter + 1) % 4294967296
  let cm : Nat × Machine :=
    if counter ≥ 0x001800B0 then
      (0, { m with bda := { m.bda with
              timer_rollover := (m.bda.timer_rollover % 256 + 1) % 256 } })
    else (counter, m)
  let m := { cm.2 with bda := { cm.2.bda with timer_counter := cm.1 } }
  let m := m.log (Event.call16_int 0x1c)
  let m := m.log Event.irq_disable
  m.log Event.eoi_pic1

/-! ## Periodic timer -/

def set_usertimer (usecs seg offset : Nat) (m : Machine) : Int × Machine :=
  if (m.bda.rtc_wait_flag % 256) &&& RWS_WAIT_PENDING ≠ 0 then (-1, m)
  else
    let m := { m with bda := { m.bda with rtc_wait_flag := RWS_WAIT_PENDING % 256 } }
    let m := { m with bda := { m.bda with
                ptr_user_wait_complete_flag :=
                  ((seg % 65536) * 65536 ||| (offset % 65536)) % 4294967296 } }
    let m := { m with bda := { m.bda with user_wait_timeout := usecs % 4294967296 } }
    let r := inb_cmos CMOS_STATUS_B m
    let bRegister := r.1
    let m := outb_cmos (bRegister ||| RTC_B_PIE) CMOS_STATUS_B r.2
    (0, m)

def clear_usertimer (m : Machine) : Machine :=
  let m := { m with bda := { m.bda with rtc_wait_flag := 0 } }
  let r := inb_cmos CMOS_STATUS_B m
  let bRegister := r.1
  outb_cmos (bRegister &&& bitnot RTC_B_PIE) CMOS_STATUS_B r.2

/-- The wait loop of the 16bit `usleep`: `while (!statusflag) cpu_relax();`.
With interrupts enabled, `env` is what the interrupt handlers do to the
machine during one `cpu_relax`.  `none` when the flag is not seen set within
`fuel` rounds. -/
def usleep_wait (env : Machine → Machine) (ss addr : Nat) :
    Nat → Machine → Option Machine
  | 0, m => if GET_FARVAR ss addr m ≠ 0 then some m else none
  | fuel + 1, m =>
    if GET_FARVAR ss addr m ≠ 0 then some m
    else usleep_wait env ss addr fuel (env (m.log Event.cpu_relax))

/-- The 16bit branch (`MODE16`) of `usleep`, the one compiled into the INT 15h
handler.  `ss` and `addr` locate the local `statusflag` on the stack. -/
def usleep (env : Machine → Machine) (fuel : Nat) (ss addr : Nat)
    (count : Nat) (m : Machine) : Option (Int × Machine) :=
  let m := SET_FARVAR ss addr 0 m
  let r := set_usertimer count ss addr m
  if r.1 ≠ 0 then some (-1, r.2)
  else
    let m := r.2.log Event.irq_enable
    match usleep_wait env ss addr fuel m with
    | none => none
    | some m => some (0, m.log Event.irq_disable)

def handle_1586 (env : Machine → Machine) (fuel : Nat) (ss addr : Nat)
    (regs : Bregs) (m : Machine) : Option (Bregs × Machine) :=
  match usleep env fuel ss addr ((regs.cx * 65536 ||| regs.dx) % 4294967296) m with
  | none => none
  | some r =>
    if r.1 ≠ 0 then some (set_code_fail regs RET_ECLOCKINUSE, r.2)
    else some (set_success regs, r.2)

def handle_158300 (regs : Bregs) (m : Machine) : Bregs × Machine :=
  let r := set_usertimer ((regs.cx * 65536 ||| regs.dx) % 4294967296) regs.es regs.bx m
  if r.1 ≠ 0 then (set_code_fail regs RET_EUNSUPPORTED, r.2)
  else (set_success regs, r.2)

def handle_158301 (regs : Bregs) (m : Machine) : Bregs × Machine :=
  (set_success regs, clear_usertimer m)

/-- INT 70h: IRQ8, CMOS RTC. -/
def handle_70 (m : Machine) : Machine :=
  let r := inb_cmos CMOS_STATUS_B m
  let registerB := r.1
  let r := inb_cmos CMOS_STATUS_C r.2
  let registerC := r.1
  let m := r.2
  if registerB &&& (RTC_B_PIE ||| RTC_B_AIE) = 0 then m.log Event.eoi_pic2
  else
    let m := if registerC &&& 0x20 ≠ 0 then
        (m.log (Event.call16_int 0x4a)).log Event.irq_disable
      else m
    if registerC &&& 0x40 = 0 then m.log Event.eoi_pic2
    else if m.bda.rtc_wait_flag % 256 = 0 then m.log Event.eoi_pic2
    else
      let time := m.bda.user_wait_timeout % 4294967296
      let m :=
        if time < 0x3D1 then
          let segoff := m.bda.ptr_user_wait_complete_flag % 4294967296
          let segment := (segoff >>> 16) % 65536
          let offset := (segoff &&& 0xffff) % 65536
          let oldval := GET_FARVAR segment offset m
          let m := SET_FARVAR segment offset (oldval ||| 0x80) m
          clear_usertimer m
        else
          let time := (time + 4294967296 - 0x3D1) % 4294967296
          { m with bda := { m.bda with user_wait_timeout := time } }
      m.log Event.eoi_pic2

/-- One RTC interrupt: the hardware has latched the fired-source flags `c` in
Status Register C and raised IRQ8, and `handle_70` runs. -/
def rtc_irq (c : Nat) (m : Machine) : Machine :=
  handle_70 { m with irq_flags := c }

/-- Successive RTC interrupts with nothing in between, the one numbered `k`
(from 0) taken with the flags `c k` latched. -/
def rtc_irqs (c : Nat → Nat) : Nat → Machine → Machine
  | 0, m => m
  | k + 1, m => rtc_irq (c k) (rtc_irqs c k m)

/-! ## Observations used in the statements -/

/-- Status Register B as the code reads it. -/
def statusB (m : Machine) : Nat := (inb_cmos CMOS_STATUS_B m).1

/-- Status Register C as the code reads it. -/
def statusC (m : Machine) : Nat := (inb_cmos CMOS_STATUS_C m).1

/-- Segment of the completion target, as `handle_70` decodes it. -/
def wait_segment (m : Machine) : Nat :=
  ((m.bda.ptr_user_wait_complete_flag % 4294967296) >>> 16) % 65536

/-- Offset of the completion target, as `handle_70` decodes it. -/
def wait_offset (m : Machine) : Nat :=
  ((m.bda.ptr_user_wait_complete_flag % 4294967296) &&& 0xffff) % 65536

/-- A PendingWait is active: `rtc_wait_flag & RWS_WAIT_PENDING`. -/
def wait_pending (m : Machine) : Prop :=
  (m.bda.rtc_wait_flag % 256) &&& RWS_WAIT_PENDING ≠ 0

instance (m : Machine) : Decidable (wait_pending m) := by
  unfold wait_pending; exact inferInstance

/-- The update-in-progress bit is set in the `i`-th reading of Status
Register A still to come. -/
def uip_set (m : Machine) (i : Nat) : Prop :=
  (m.statusA (m.polls + i) % 256) &&& 0x80 ≠ 0

instance (m : Machine) (i : Nat) : Decidable (uip_set m i) := by
  unfold uip_set; exact inferInstance

/-- The machine after `n` more readings of Status Register A and nothing
else. -/
def after_polls (m : Machine) (n : Nat) : Machine :=
  { m with polls := m.polls + n }

/-- The periodic-enable bit of Status B is set exactly when a wait is
pending. -/
def wait_invariant (m : Machine) : Prop :=
  statusB m &&& RTC_B_PIE ≠ 0 ↔ wait_pending m

/-! ## Sample states -/

/-- A state with a wait pending on the byte at 0040:0010 (holding 0x01), the
periodic interrupt enabled (Status B = 0x42) and fired (Status C = 0x40), and
`r` microseconds left. -/
def sampleWait (r : Nat) : Machine where
  bda := { timer_counter := 0, timer_rollover := 0, rtc_wait_flag := 1,
           ptr_user_wait_complete_flag := 0x00400010, user_wait_timeout := r }
  cmos := fun reg =>
    match reg with
    | CMOS_STATUS_B => 0x42
    | _ => 0
  irq_flags := 0x40
  mem := fun _ _ => 0x01
  statusA := fun _ => 0
  polls := 0
  trace := []

/-- A state whose tick counter is `c` and whose rollover counter is `ro`. -/
def sampleTick (c ro : Nat) : Machine where
  bda := { timer_counter := c, timer_rollover := ro, rtc_wait_flag := 0,
           ptr_user_wait_complete_flag := 0, user_wait_timeout := 0 }
  cmos := fun _ => 0
  irq_flags := 0
  mem := fun _ _ => 0
  statusA := fun _ => 0
  polls := 0
  trace := []

/-- A state of the RTC: every reading of Status Register A returns `a`,
Status B holds `b`, `rtc_wait_flag` holds `flag`, and the clock shows
12:34:56 on 31/10/2026. -/
def sampleRtc (a b flag : Nat) : Machine where
  bda := { timer_counter := 0, timer_rollover := 0, rtc_wait_flag := flag,
           ptr_user_wait_complete_flag := 0x00400010, user_wait_timeout := 5000 }
  cmos := fun reg =>
    match reg with
    | CMOS_RTC_SECONDS => 0x56
    | CMOS_RTC_MINUTES => 0x34
    | CMOS_RTC_HOURS => 0x12
    | CMOS_RTC_DAY_MONTH => 0x31
    | CMOS_RTC_MONTH => 0x10
    | CMOS_RTC_YEAR => 0x26
    | CMOS_CENTURY => 0x20
    | CMOS_STATUS_A => 0x2F
    | CMOS_STATUS_B => b
    | _ => 0
  irq_flags := 0
  mem := fun _ _ => 0x01
  statusA := fun _ => a
  polls := 0
  trace := []

/-- A register frame: CH, CL, DH = 0x07, 0x08, 0x09 and DL = 1 (as a time,
07:08:09 with the daylight saving flag set), ES:BX = 0040:0010. -/
def sampleRegs : Bregs :=
  { al := 0, ah := 0x83, bl := 0x10, bh := 0x00, cl := 0x08, ch := 0x07,
    dl := 0x01, dh := 0x09, es := 0x0040, cf := false }

/-- A state of the RTC in which the update-in-progress bit is set in the first
`k` readings of Status Register A and clear from then on. -/
def sampleSettle (k : Nat) : Machine :=
  { sampleRtc 0 0x02 0 with statusA := fun i => if i < k then 0xA6 else 0x26 }

/-- A state at the entry of the RTC interrupt: Status B holds `b`, Status C
holds `c`, `rtc_wait_flag` holds `flag` and `r` microseconds are left; the
completion target is the byte at 0040:0010, holding 0x01. -/
def sampleIrq (b c flag r : Nat) : Machine where
  bda := { timer_counter := 0, timer_rollover := 0, rtc_wait_flag := flag,
           ptr_user_wait_complete_flag := 0x00400010, user_wait_timeout := r }
  cmos := fun reg =>
    match reg with
    | CMOS_STATUS_B => b
    | _ => 0
  irq_flags := c
  mem := fun _ _ => 0x01
  statusA := fun _ => 0
  polls := 0
  trace := []

/-- A state whose clock registers hold the BCD bytes `h`, `mi`, `s`. -/
def sampleClock (h mi s : Nat) : Machine where
  bda := { timer_counter := 0xFFFFFFFF, timer_rollover := 9, rtc_wait_flag := 0,
           ptr_user_wait_complete_flag := 0, user_wait_timeout := 0 }
  cmos := fun reg =>
    match reg with
    | CMOS_RTC_SECONDS => s
    | CMOS_RTC_MINUTES => mi
    | CMOS_RTC_HOURS => h
    | _ => 0
  irq_flags := 0
  mem := fun _ _ => 0
  statusA := fun _ => 0
  polls := 0
  trace := []

/-- A byte is a two digit BCD number not above `max`. -/
def valid_bcd (val max : Nat) : Prop :=
  val < 256 ∧ val % 16 ≤ 9 ∧ val / 16 * 10 + val % 16 ≤ max

instance (val max : Nat) : Decidable (valid_bcd val max) := by
  unfold valid_bcd; exact inferInstance

instance (m : Machine) : Decidable (wait_invariant m) := by
  unfold wait_invariant; exact inferInstance

/-! ## Byte arithmetic -/

theorem byte_pie_in_mask : ∀ x < 256, x &&& 0x40 ≠ 0 → x &&& 0x60 ≠ 0 := by
  decide

theorem byte_pending_nonzero : ∀ x < 256, x &&& 1 ≠ 0 → x ≠ 0 := by decide

theorem byte_or_80 : ∀ x < 256,
    (x ||| 0x80) % 256 = x ||| 0x80 ∧ (x ||| 0x80) &&& 0x7f = x &&& 0x7f := by
  decide

theorem byte_clear_pie : ∀ x < 256,
    ((x &&& 0xFFFFFFBF) % 256) % 256 &&& 0x40 = 0 := by
  decide

theorem byte_set_pie : ∀ x < 256, ((x ||| 0x40) % 256) % 256 &&& 0x40 ≠ 0 := by
  decide

theorem byte_or_40 : ∀ x < 256, ((x ||| 0x40) % 256) % 256 = x ||| 0x40 := by
  decide

theorem mod_byte_lt (x : Nat) : x % 256 < 256 := Nat.mod_lt _ (by norm_num)

/-! ## The update-in-progress poll -/

theorem after_polls_zero (m : Machine) : after_polls m 0 = m := rfl

theorem after_polls_add (m : Machine) (a b : Nat) :
    after_polls (after_polls m a) b = after_polls m (a + b) := by
  simp [after_polls, Nat.add_assoc]

theorem uip_set_after_polls (m : Machine) (a i : Nat) :
    uip_set (after_polls m a) i ↔ uip_set m (a + i) := by
  simp [uip_set, after_polls, Nat.add_assoc]

theorem inb_cmos_status_a (m : Machine) :
    inb_cmos CMOS_STATUS_A m = (m.statusA m.polls % 256, after_polls m 1) := rfl

/-- While the update-in-progress bit stays set the loop reads Status A once per
remaining count and then times out. -/
theorem rtc_updating_loop_busy (n : Nat) : ∀ m : Machine,
    (∀ i, i < n → uip_set m i) → rtc_updating_loop (n + 1) m = (1, after_polls m n) := by
  induction n with
  | zero => intro m _; rfl
  | succ n ih =>
    intro m h
    have h0 : m.statusA m.polls % 256 &&& 0x80 ≠ 0 := by
      simpa [uip_set] using h 0 (Nat.succ_pos n)
    have hrec := ih (after_polls m 1) (fun i hi => by
      rw [uip_set_after_polls]
      exact h (1 + i) (by omega))
    rw [after_polls_add] at hrec
    have hn : (1 + n) = n + 1 := by omega
    rw [rtc_updating_loop]
    simp only [inb_cmos_status_a]
    simp [h0, hrec, hn]

/-- The loop returns 0 at the first reading with the bit clear, provided that
reading is among those the remaining count allows. -/
theorem rtc_updating_loop_clear (k : Nat) : ∀ (n : Nat) (m : Machine),
    k < n → (∀ i, i < k → uip_set m i) → ¬ uip_set m k →
    rtc_updating_loop (n + 1) m = (0, after_polls m (k + 1)) := by
  induction k with
  | zero =>
    intro n m hn _ hclear
    have h0 : m.statusA m.polls % 256 &&& 0x80 = 0 := by
      simpa [uip_set] using hclear
    have hn0 : n ≠ 0 := by omega
    rw [rtc_updating_loop]
    simp only [inb_cmos_status_a]
    simp [h0, hn0]
  | succ k ih =>
    intro n m hn hbusy hclear
    obtain ⟨n', rfl⟩ : ∃ n', n = n' + 1 := ⟨n - 1, by omega⟩
    have h0 : m.statusA m.polls % 256 &&& 0x80 ≠ 0 := by
      simpa [uip_set] using hbusy 0 (Nat.succ_pos k)
    have hrec := ih n' (after_polls m 1) (by omega)
      (fun i hi => by
        rw [uip_set_after_polls]
        exact hbusy (1 + i) (by omega))
      (by
        rw [uip_set_after_polls]
        have hk : 1 + k = k + 1 := by omega
        rw [hk]
        exact hclear)
    rw [after_polls_add] at hrec
    have hk : 1 + (k + 1) = k + 1 + 1 := by omega
    rw [rtc_updating_loop]
    simp only [inb_cmos_status_a]
    simp [h0, hrec, hk]

/-- The poll only consumes readings of Status A: it returns 0 or 1 and leaves
the machine as it was but for the number of readings taken, at most 24999. -/
theorem rtc_updating_frame (m : Machine) :
    ∃ n, n ≤ 24999 ∧ (rtc_updating m).2 = after_polls m n
      ∧ ((rtc_updating m).1 = 0 ∨ (rtc_updating m).1 = 1) := by
  by_cases h : ∀ i, i < 24999 → uip_set m i
  · exact ⟨24999, le_refl _, by rw [rtc_updating, rtc_updating_loop_busy 24999 m h],
      Or.inr (by rw [rtc_updating, rtc_updating_loop_busy 24999 m h])⟩
  · have hex : ∃ k, k < 24999 ∧ ¬ uip_set m k := by
      by_contra hne
      exact h (fun i hi => by
        by_contra hc
        exact hne ⟨i, hi, hc⟩)
    classical
    let k := Nat.find hex
    have hk : k < 24999 ∧ ¬ uip_set m k := Nat.find_spec hex
    have hmin : ∀ i, i < k → uip_set m i := fun i hi => by
      by_contra hc
      exact Nat.find_min hex hi ⟨by omega, hc⟩
    have hl := rtc_updating_loop_clear k 24999 m hk.1 hmin hk.2
    exact ⟨k + 1, by omega, by rw [rtc_updating, hl], Or.inl (by rw [rtc_updating, hl])⟩

/-! ## The periodic interrupt: the two branches of the wait -/

/-- The state components after `handle_70` when the wait completes. -/
theorem handle_70_complete (m : Machine)
    (hB : m.cmos CMOS_STATUS_B % 256 &&& 0x60 ≠ 0)
    (hC : m.irq_flags % 256 &&& 0x40 ≠ 0)
    (hW : m.bda.rtc_wait_flag % 256 ≠ 0)
    (hlt : m.bda.user_wait_timeout % 4294967296 < 977) :
    (handle_70 m).bda = { m.bda with rtc_wait_flag := 0 }
    ∧ (handle_70 m).cmos = (fun r => if r = CMOS_STATUS_B
          then (m.cmos CMOS_STATUS_B % 256 &&& 0xFFFFFFBF) % 256 else m.cmos r)
    ∧ (handle_70 m).mem = (fun s o => if s = wait_segment m ∧ o = wait_offset m
          then (m.mem (wait_segment m) (wait_offset m) % 256 ||| 0x80) % 256
          else m.mem s o) := by
  by_cases hA : m.irq_flags % 256 &&& 0x20 = 0 <;>
    simp [handle_70, inb_cmos, Machine.log, RTC_B_PIE, RTC_B_AIE, hB, hC, hW, hlt,
      hA, clear_usertimer, SET_FARVAR, GET_FARVAR, outb_cmos, bitnot,
      wait_segment, wait_offset]

/-- The state components after `handle_70` when the wait continues. -/
theorem handle_70_continue (m : Machine)
    (hB : m.cmos CMOS_STATUS_B % 256 &&& 0x60 ≠ 0)
    (hC : m.irq_flags % 256 &&& 0x40 ≠ 0)
    (hW : m.bda.rtc_wait_flag % 256 ≠ 0)
    (hge : 977 ≤ m.bda.user_wait_timeout % 4294967296) :
    (handle_70 m).bda = { m.bda with
        user_wait_timeout := m.bda.user_wait_timeout % 4294967296 - 977 }
    ∧ (handle_70 m).cmos = m.cmos
    ∧ (handle_70 m).mem = m.mem := by
  have hge1 : ¬ m.bda.user_wait_timeout % 4294967296 < 977 := by omega
  by_cases hA : m.irq_flags % 256 &&& 0x20 = 0 <;>
    simp [handle_70, inb_cmos, Machine.log, RTC_B_PIE, RTC_B_AIE, hB, hC, hW, hge1,
      hA] <;> omega

/-- Whatever path `handle_70` takes, it either leaves the wait state, the CMOS
registers and memory alone, or completes the wait, or continues it. -/
theorem handle_70_cases (m : Machine) :
    ((handle_70 m).bda = m.bda ∧ (handle_70 m).cmos = m.cmos ∧ (handle_70 m).mem = m.mem)
    ∨ ((handle_70 m).bda = { m.bda with rtc_wait_flag := 0 }
        ∧ (handle_70 m).cmos = (fun r => if r = CMOS_STATUS_B
            then (m.cmos CMOS_STATUS_B % 256 &&& 0xFFFFFFBF) % 256 else m.cmos r))
    ∨ ((handle_70 m).bda = { m.bda with
          user_wait_timeout := m.bda.user_wait_timeout % 4294967296 - 977 }
        ∧ (handle_70 m).cmos = m.cmos ∧ (handle_70 m).mem = m.mem) := by
  by_cases hB : m.cmos CMOS_STATUS_B % 256 &&& 0x60 = 0
  · left
    simp [handle_70, inb_cmos, Machine.log, RTC_B_PIE, RTC_B_AIE, hB]
  · by_cases hC : m.irq_flags % 256 &&& 0x40 = 0
    · left
      by_cases hA : m.irq_flags % 256 &&& 0x20 = 0 <;>
        simp [handle_70, inb_cmos, Machine.log, RTC_B_PIE, RTC_B_AIE, hB, hC, hA]
    · by_cases hW : m.bda.rtc_wait_flag % 256 = 0
      · left
        by_cases hA : m.irq_flags % 256 &&& 0x20 = 0 <;>
          simp [handle_70, inb_cmos, Machine.log, RTC_B_PIE, RTC_B_AIE, hB, hC, hA, hW]
      · by_cases hlt : m.bda.user_wait_timeout % 4294967296 < 977
        · right; left
          have h := handle_70_complete m hB hC hW hlt
          exact ⟨h.1, h.2.1⟩
        · right; right
          exact handle_70_continue m hB hC hW (by omega)

theorem byte_1a03 : ∀ x < 256, ∀ d < 2,
    ((x &&& 0x60 ||| 0x02 ||| d) % 256) % 256 &&& 0x40 = x &&& 0x40 := by
  decide

theorem byte_1a05 : ∀ x < 256, ((x &&& 0xFFFFFF7F) % 256) % 256 &&& 0x40 = x &&& 0x40 := by
  decide

theorem byte_1a06 : ∀ x < 256,
    ((x &&& 0xFFFFFF7F ||| 0x20) % 256) % 256 &&& 0x40 = x &&& 0x40 := by
  decide

theorem byte_1a07 : ∀ x < 256, ((x &&& 0xFFFFFF5F) % 256) % 256 &&& 0x40 = x &&& 0x40 := by
  decide

theorem and_one_lt_two (d : Nat) : d &&& 1 < 2 := by
  have := Nat.and_le_right (n := d) (m := 1)
  omega

/-! ## The RTC services and the outcome of the poll -/

/-- With the update-in-progress bit set in the next 24999 readings the poll
times out after exactly those readings. -/
theorem rtc_updating_timeout (m : Machine) (h : ∀ i, i < 24999 → uip_set m i) :
    rtc_updating m = (1, after_polls m 24999) := by
  rw [rtc_updating, rtc_updating_loop_busy 24999 m h]

/-- With the bit clear in the next reading the poll returns 0 after one
reading. -/
theorem rtc_updating_ready (m : Machine) (h : ¬ uip_set m 0) :
    rtc_updating m = (0, after_polls m 1) := by
  rw [rtc_updating, rtc_updating_loop_clear 0 24999 m (by norm_num)
    (fun i hi => absurd hi (Nat.not_lt_zero i)) h]

/-- READ_TIME when the poll times out. -/
theorem handle_1a02_timeout (regs : Bregs) (m : Machine) (h : (rtc_updating m).1 ≠ 0) :
    handle_1a02 regs m = (set_fail regs, (rtc_updating m).2) := by
  simp [handle_1a02, h]

/-- READ_DATE when the poll times out. -/
theorem handle_1a04_timeout (regs : Bregs) (m : Machine) (h : (rtc_updating m).1 ≠ 0) :
    handle_1a04 regs m = (set_fail { regs with ah := 0 }, (rtc_updating m).2) := by
  simp [handle_1a04, h]

/-- WRITE_DATE when the poll times out. -/
theorem handle_1a05_timeout (regs : Bregs) (m : Machine) (h : (rtc_updating m).1 ≠ 0) :
    handle_1a05 regs m = (set_fail regs, init_rtc (rtc_updating m).2) := by
  simp [handle_1a05, h]

/-- WRITE_TIME returns success whatever the poll returned. -/
theorem handle_1a03_success (regs : Bregs) (m : Machine) :
    (handle_1a03 regs m).1.cf = false ∧ (handle_1a03 regs m).1.ah = 0 := by
  simp [handle_1a03, set_success]

/-- The CMOS registers after `init_rtc`. -/
theorem init_rtc_cmos (m : Machine) :
    (init_rtc m).cmos = (fun r => if r = CMOS_STATUS_B then 0x02
      else if r = CMOS_STATUS_A then 0x26 else m.cmos r) := by
  simp [init_rtc, inb_cmos, outb_cmos]

/-- The poll leaves the CMOS registers alone. -/
theorem rtc_updating_cmos (m : Machine) : (rtc_updating m).2.cmos = m.cmos := by
  obtain ⟨n, _, hn, _⟩ := rtc_updating_frame m
  rw [hn]
  rfl

/-- Status B and the wait flag after WRITE_TIME and WRITE_DATE when the poll
times out. -/
theorem write_timeout_reinit (m : Machine) (regs : Bregs) (h1 : (rtc_updating m).1 ≠ 0) :
    statusB (handle_1a03 regs m).2 &&& RTC_B_PIE = 0
    ∧ (handle_1a03 regs m).2.bda.rtc_wait_flag = m.bda.rtc_wait_flag
    ∧ statusB (handle_1a05 regs m).2 &&& RTC_B_PIE = 0
    ∧ (handle_1a05 regs m).2.bda.rtc_wait_flag = m.bda.rtc_wait_flag := by
  obtain ⟨n, _, hn, _⟩ := rtc_updating_frame m
  have h3 := byte_1a03 2 (by decide) _ (and_one_lt_two regs.dl)
  have hB3 : statusB (handle_1a03 regs m).2
      = (2 &&& 0x60 ||| 0x02 ||| regs.dl &&& 1) % 256 % 256 := by
    simp [handle_1a03, inb_cmos, hn, h1, outb_cmos, after_polls, statusB, init_rtc]
  have hF3 : (handle_1a03 regs m).2.bda = m.bda := by
    simp [handle_1a03, inb_cmos, hn, h1, outb_cmos, after_polls, init_rtc]
  have hB5 : statusB (handle_1a05 regs m).2 = 2 := by
    simp [handle_1a05, inb_cmos, hn, h1, outb_cmos, after_polls, statusB, init_rtc]
  have hF5 : (handle_1a05 regs m).2.bda = m.bda := by
    simp [handle_1a05, inb_cmos, hn, h1, outb_cmos, after_polls, init_rtc]
  refine ⟨?_, by rw [hF3], ?_, by rw [hF5]⟩
  · rw [hB3]
    simp only [RTC_B_PIE, h3]
    decide
  · rw [hB5]
    decide

/-! ## Claims -/

/-- C1: with the periodic interrupt enabled in Status B, the periodic-fired bit
set in Status C and a wait pending with remaining time `r`, one run of
`handle_70` with `r < 977` ORs 0x80 into the byte at the completion target
(other bits and other bytes unchanged), sets `rtc_wait_flag` to 0 and clears
the periodic-enable bit; with `r ≥ 977` it stores `r - 977`, keeps the flag
and Status B and writes no memory. -/
theorem handle_70_wait_step (m : Machine) (r : Nat)
    (hB : statusB m &&& RTC_B_PIE ≠ 0)
    (hC : statusC m &&& 0x40 ≠ 0)
    (hW : wait_pending m)
    (hr : m.bda.user_wait_timeout = r) (h32 : r < 4294967296) :
    (r < 977 →
      (handle_70 m).mem (wait_segment m) (wait_offset m)
          = GET_FARVAR (wait_segment m) (wait_offset m) m ||| 0x80
        ∧ (handle_70 m).mem (wait_segment m) (wait_offset m) &&& 0x7f
          = GET_FARVAR (wait_segment m) (wait_offset m) m &&& 0x7f
        ∧ (∀ s o, ¬ (s = wait_segment m ∧ o = wait_offset m) →
            (handle_70 m).mem s o = m.mem s o)
        ∧ (handle_70 m).bda.rtc_wait_flag = 0
        ∧ statusB (handle_70 m) &&& RTC_B_PIE = 0)
    ∧ (977 ≤ r →
      (handle_70 m).bda.user_wait_timeout = r - 977
        ∧ (handle_70 m).bda.rtc_wait_flag = m.bda.rtc_wait_flag
        ∧ wait_pending (handle_70 m)
        ∧ (handle_70 m).cmos = m.cmos
        ∧ statusB (handle_70 m) &&& RTC_B_PIE ≠ 0
        ∧ (handle_70 m).mem = m.mem) := by
  have hB0 : m.cmos CMOS_STATUS_B % 256 &&& 0x40 ≠ 0 := by
    simpa [statusB, inb_cmos, RTC_B_PIE] using hB
  have hB1 := byte_pie_in_mask _ (mod_byte_lt _) hB0
  have hC1 : m.irq_flags % 256 &&& 0x40 ≠ 0 := by
    simpa [statusC, inb_cmos] using hC
  have hW0 : m.bda.rtc_wait_flag % 256 &&& 1 ≠ 0 := by
    simpa [wait_pending, RWS_WAIT_PENDING] using hW
  have hW1 := byte_pending_nonzero _ (mod_byte_lt _) hW0
  subst hr
  have hmod : m.bda.user_wait_timeout % 4294967296 = m.bda.user_wait_timeout :=
    Nat.mod_eq_of_lt h32
  constructor
  · intro hlt
    obtain ⟨hbda, hcmos, hmem⟩ := handle_70_complete m hB1 hC1 hW1 (by omega)
    have hold := byte_or_80 (m.mem (wait_segment m) (wait_offset m) % 256) (mod_byte_lt _)
    have hclr := byte_clear_pie (m.cmos CMOS_STATUS_B % 256) (mod_byte_lt _)
    refine ⟨?_, ?_, ?_, ?_, ?_⟩
    · simp [hmem, GET_FARVAR, hold.1]
    · simp [hmem, GET_FARVAR, hold.1, hold.2]
    · intro s o hso
      simp [hmem, hso]
    · simp [hbda]
    · simpa [statusB, inb_cmos, hcmos, RTC_B_PIE] using hclr
  · intro hge
    obtain ⟨hbda, hcmos, hmem⟩ := handle_70_continue m hB1 hC1 hW1 (by omega)
    refine ⟨?_, ?_, ?_, hcmos, ?_, hmem⟩
    · simp [hbda, hmod]
    · simp [hbda]
    · simpa [wait_pending, RWS_WAIT_PENDING, hbda] using hW0
    · simpa [statusB, inb_cmos, hcmos, RTC_B_PIE] using hB0

/-- Witness of C1 at the two inputs of the spec: 500 microseconds left
(completion) and 5000 microseconds left (4023 left afterwards). -/
theorem handle_70_wait_step_witness :
    (statusB (sampleWait 500) &&& RTC_B_PIE ≠ 0 ∧ statusC (sampleWait 500) &&& 0x40 ≠ 0
      ∧ wait_pending (sampleWait 500))
    ∧ ((handle_70 (sampleWait 500)).mem (wait_segment (sampleWait 500))
          (wait_offset (sampleWait 500))
        = GET_FARVAR (wait_segment (sampleWait 500)) (wait_offset (sampleWait 500))
            (sampleWait 500) ||| 0x80
      ∧ (handle_70 (sampleWait 500)).bda.rtc_wait_flag = 0
      ∧ statusB (handle_70 (sampleWait 500)) &&& RTC_B_PIE = 0)
    ∧ ((handle_70 (sampleWait 5000)).bda.user_wait_timeout = 4023
      ∧ wait_pending (handle_70 (sampleWait 5000))
      ∧ (handle_70 (sampleWait 5000)).mem = (sampleWait 5000).mem) := by
  have h1 := (handle_70_wait_step (sampleWait 500) 500 (by decide) (by decide) (by decide)
    rfl (by decide)).1 (by decide)
  have h2 := (handle_70_wait_step (sampleWait 5000) 5000 (by decide) (by decide)
    (by decide) rfl (by decide)).2 (by decide)
  exact ⟨⟨by decide, by decide, by decide⟩, ⟨h1.1, h1.2.2.2.1, h1.2.2.2.2⟩,
    ⟨h2.1, h2.2.2.1, h2.2.2.2.2.2⟩⟩

/-- C2, as stated, fails: with 1000 microseconds left the decremented value
(23) is below one quantum, yet one run of `handle_70` does not signal
completion: the wait stays pending, the periodic interrupt stays enabled, the
target byte is not written and 23 is stored back. -/
theorem handle_70_subtract_first_counterexample :
    977 ≤ 1000 ∧ 1000 < 1954 ∧ 1000 - 977 < 977
    ∧ wait_pending (sampleWait 1000)
    ∧ statusB (sampleWait 1000) &&& RTC_B_PIE ≠ 0
    ∧ statusC (sampleWait 1000) &&& 0x40 ≠ 0
    ∧ wait_pending (handle_70 (sampleWait 1000))
    ∧ (handle_70 (sampleWait 1000)).bda.rtc_wait_flag = 1
    ∧ (handle_70 (sampleWait 1000)).bda.user_wait_timeout = 23
    ∧ statusB (handle_70 (sampleWait 1000)) &&& RTC_B_PIE ≠ 0
    ∧ (handle_70 (sampleWait 1000)).mem (wait_segment (sampleWait 1000))
        (wait_offset (sampleWait 1000)) = 0x01 := by
  decide

/-- C2, amended: for a pending wait with `r` microseconds left on which the
periodic source fired (and an RTC interrupt is enabled in Status B),
`handle_70` compares `r` itself with one quantum: it signals completion (ORs
0x80 into the target byte, clears the flag and the periodic-enable bit) exactly
when `r < 977`, without subtracting; otherwise it stores `r - 977` back and the
wait stays pending.  For `977 ≤ r < 1954` the first firing only stores
`r - 977` and it is the second firing, an interrupt taken with the
periodic-fired flag latched anew in Status C, that completes the wait. -/
theorem handle_70_compare_first (m : Machine) (r : Nat)
    (hB : statusB m &&& (RTC_B_PIE ||| RTC_B_AIE) ≠ 0)
    (hC : statusC m &&& 0x40 ≠ 0)
    (hW : wait_pending m)
    (hr : m.bda.user_wait_timeout = r) (h32 : r < 4294967296) :
    ((handle_70 m).bda.rtc_wait_flag = 0 ↔ r < 977)
    ∧ (r < 977 →
        (handle_70 m).mem (wait_segment m) (wait_offset m)
            = GET_FARVAR (wait_segment m) (wait_offset m) m ||| 0x80
          ∧ (handle_70 m).bda.user_wait_timeout = r
          ∧ statusB (handle_70 m) &&& RTC_B_PIE = 0)
    ∧ (977 ≤ r →
        (handle_70 m).bda.user_wait_timeout = r - 977
          ∧ wait_pending (handle_70 m)
          ∧ (handle_70 m).cmos = m.cmos
          ∧ (handle_70 m).mem = m.mem)
    ∧ (977 ≤ r → r < 1954 →
        wait_pending (handle_70 m)
          ∧ ∀ c, c % 256 &&& 0x40 ≠ 0 →
            (rtc_irq c (handle_70 m)).bda.rtc_wait_flag = 0
            ∧ (rtc_irq c (handle_70 m)).mem (wait_segment m) (wait_offset m)
                = GET_FARVAR (wait_segment m) (wait_offset m) m ||| 0x80) := by
  have hB1 : m.cmos CMOS_STATUS_B % 256 &&& 0x60 ≠ 0 := by
    simpa [statusB, inb_cmos, RTC_B_PIE, RTC_B_AIE] using hB
  have hC1 : m.irq_flags % 256 &&& 0x40 ≠ 0 := by
    simpa [statusC, inb_cmos] using hC
  have hW0 : m.bda.rtc_wait_flag % 256 &&& 1 ≠ 0 := by
    simpa [wait_pending, RWS_WAIT_PENDING] using hW
  have hW1 := byte_pending_nonzero _ (mod_byte_lt _) hW0
  have hWne : m.bda.rtc_wait_flag ≠ 0 := by
    intro h0; rw [h0] at hW1; exact hW1 rfl
  subst hr
  have hmod : m.bda.user_wait_timeout % 4294967296 = m.bda.user_wait_timeout :=
    Nat.mod_eq_of_lt h32
  have hold := byte_or_80 (m.mem (wait_segment m) (wait_offset m) % 256) (mod_byte_lt _)
  have hclr := byte_clear_pie (m.cmos CMOS_STATUS_B % 256) (mod_byte_lt _)
  have hdone : m.bda.user_wait_timeout < 977 →
      (handle_70 m).bda = { m.bda with rtc_wait_flag := 0 }
      ∧ (handle_70 m).mem (wait_segment m) (wait_offset m)
            = GET_FARVAR (wait_segment m) (wait_offset m) m ||| 0x80
      ∧ statusB (handle_70 m) &&& RTC_B_PIE = 0 := by
    intro hlt
    obtain ⟨hbda, hcmos, hmem⟩ := handle_70_complete m hB1 hC1 hW1 (by omega)
    refine ⟨hbda, ?_, ?_⟩
    · simp [hmem, GET_FARVAR, hold.1]
    · simpa [statusB, inb_cmos, hcmos, RTC_B_PIE] using hclr
  have hcont : 977 ≤ m.bda.user_wait_timeout →
      (handle_70 m).bda = { m.bda with user_wait_timeout := m.bda.user_wait_timeout - 977 }
      ∧ (handle_70 m).cmos = m.cmos ∧ (handle_70 m).mem = m.mem := by
    intro hge
    have h := handle_70_continue m hB1 hC1 hW1 (by omega)
    rw [hmod] at h
    exact h
  refine ⟨⟨?_, ?_⟩, ?_, ?_, ?_⟩
  · intro h0
    by_contra hge
    have h := (hcont (by omega)).1
    rw [h] at h0
    exact hWne h0
  · intro hlt
    simp [(hdone hlt).1]
  · intro hlt
    obtain ⟨hbda, hmem, hpie⟩ := hdone hlt
    exact ⟨hmem, by simp [hbda], hpie⟩
  · intro hge
    obtain ⟨hbda, hcmos, hmem⟩ := hcont hge
    refine ⟨by simp [hbda], ?_, hcmos, hmem⟩
    simpa [wait_pending, RWS_WAIT_PENDING, hbda] using hW0
  · intro hge hlt
    obtain ⟨hbda, hcmos, hmem⟩ := hcont hge
    have hpend : wait_pending (handle_70 m) := by
      simpa [wait_pending, RWS_WAIT_PENDING, hbda] using hW0
    refine ⟨hpend, fun c hc => ?_⟩
    obtain ⟨hbda2, _, hmem2⟩ := handle_70_complete { handle_70 m with irq_flags := c }
      (by show (handle_70 m).cmos CMOS_STATUS_B % 256 &&& 0x60 ≠ 0
          rw [hcmos]; exact hB1)
      hc
      (by show (handle_70 m).bda.rtc_wait_flag % 256 ≠ 0
          rw [hbda]; exact hW1)
      (by show (handle_70 m).bda.user_wait_timeout % 4294967296 < 977
          rw [hbda]
          show (m.bda.user_wait_timeout - 977) % 4294967296 < 977
          omega)
    have hseg : wait_segment { handle_70 m with irq_flags := c } = wait_segment m := by
      show wait_segment (handle_70 m) = wait_segment m
      simp [wait_segment, hbda]
    have hoff : wait_offset { handle_70 m with irq_flags := c } = wait_offset m := by
      show wait_offset (handle_70 m) = wait_offset m
      simp [wait_offset, hbda]
    have hmem' : ({ handle_70 m with irq_flags := c } : Machine).mem = m.mem := hmem
    refine ⟨?_, ?_⟩
    · show (handle_70 { handle_70 m with irq_flags := c }).bda.rtc_wait_flag = 0
      rw [hbda2]
    · show (handle_70 { handle_70 m with irq_flags := c }).mem _ _ = _
      rw [hmem2, hseg, hoff, hmem']
      simp [GET_FARVAR, hold.1]

/-- Witness of the amended C2 at 1000 microseconds left. -/
theorem handle_70_compare_first_witness :
    (statusB (sampleWait 1000) &&& (RTC_B_PIE ||| RTC_B_AIE) ≠ 0
      ∧ statusC (sampleWait 1000) &&& 0x40 ≠ 0 ∧ wait_pending (sampleWait 1000))
    ∧ ((handle_70 (sampleWait 1000)).bda.rtc_wait_flag = 0 ↔ 1000 < 977)
    ∧ (wait_pending (handle_70 (sampleWait 1000))
      ∧ (rtc_irq 0x40 (handle_70 (sampleWait 1000))).bda.rtc_wait_flag = 0
      ∧ (rtc_irq 0x40 (handle_70 (sampleWait 1000))).mem (wait_segment (sampleWait 1000))
            (wait_offset (sampleWait 1000))
          = GET_FARVAR (wait_segment (sampleWait 1000)) (wait_offset (sampleWait 1000))
              (sampleWait 1000) ||| 0x80) := by
  have h := handle_70_compare_first (sampleWait 1000) 1000 (by decide) (by decide)
    (by decide) rfl (by decide)
  have h2 := h.2.2.2 (by decide) (by decide)
  exact ⟨⟨by decide, by decide, by decide⟩, h.1, h2.1, h2.2 0x40 (by decide)⟩

/-! ## The system timer tick -/

/-- C3, as stated, fails: 0x001800AF is below the day threshold 0x001800B0,
yet one run of `handle_08` from it does not leave `timer_counter = c + 1` with
the rollover counter unchanged: the counter is reset to 0 and the rollover
counter goes from 0 to 1. -/
theorem handle_08_below_threshold_counterexample :
    0x001800AF < 0x001800B0
    ∧ (sampleTick 0x001800AF 0).bda.timer_counter = 0x001800AF
    ∧ (sampleTick 0x001800AF 0).bda.timer_rollover = 0
    ∧ (handle_08 (sampleTick 0x001800AF 0)).bda.timer_counter = 0
    ∧ (handle_08 (sampleTick 0x001800AF 0)).bda.timer_counter ≠ 0x001800AF + 1
    ∧ (handle_08 (sampleTick 0x001800AF 0)).bda.timer_rollover = 1 := by
  decide

/-- C3, amended: the comparison with the day threshold is made after the
increment.  For every `c` with `c + 1` below 0x001800B0 one run of `handle_08`
leaves `timer_counter = c + 1` and `timer_rollover` unchanged; for every other
32 bit `c` whose increment does not wrap, in particular for `c = 0x001800AF`
and for `c` equal to the threshold, it leaves `timer_counter = 0` and
`timer_rollover` increased by 1 as a byte (255 wraps to 0). -/
theorem handle_08_tick (m : Machine) (c : Nat) (hc : m.bda.timer_counter = c) :
    (c + 1 < 0x001800B0 →
      (handle_08 m).bda.timer_counter = c + 1
        ∧ (handle_08 m).bda.timer_rollover = m.bda.timer_rollover)
    ∧ (0x001800AF ≤ c → c < 0xFFFFFFFF →
      (handle_08 m).bda.timer_counter = 0
        ∧ (handle_08 m).bda.timer_rollover = (m.bda.timer_rollover % 256 + 1) % 256
        ∧ (m.bda.timer_rollover < 255 →
            (handle_08 m).bda.timer_rollover = m.bda.timer_rollover + 1)) := by
  subst hc
  constructor
  · intro hlt
    have h1 : (m.bda.timer_counter % 4294967296 + 1) % 4294967296
        = m.bda.timer_counter + 1 := by omega
    have h2 : ¬ (0x001800B0 ≤ m.bda.timer_counter + 1) := by omega
    simp [handle_08, Machine.log, h1, h2]
  · intro hge hlt
    have h1 : (m.bda.timer_counter % 4294967296 + 1) % 4294967296
        = m.bda.timer_counter + 1 := by omega
    have h2 : 0x001800B0 ≤ m.bda.timer_counter + 1 := by omega
    refine ⟨?_, ?_, ?_⟩
    · simp [handle_08, Machine.log, h1, h2]
    · simp [handle_08, Machine.log, h1, h2]
    · intro hro
      simp [handle_08, Machine.log, h1, h2]
      omega

/-- Witness of the amended C3: one tick from 5, one from 0x001800AF and one
from the threshold itself. -/
theorem handle_08_tick_witness :
    ((handle_08 (sampleTick 5 7)).bda.timer_counter = 5 + 1
      ∧ (handle_08 (sampleTick 5 7)).bda.timer_rollover = (sampleTick 5 7).bda.timer_rollover)
    ∧ (handle_08 (sampleTick 0x001800AF 7)).bda.timer_counter = 0
    ∧ ((handle_08 (sampleTick 0x001800B0 7)).bda.timer_counter = 0
      ∧ (handle_08 (sampleTick 0x001800B0 7)).bda.timer_rollover = 8) :=
  ⟨(handle_08_tick (sampleTick 5 7) 5 rfl).1 (by decide),
   ((handle_08_tick (sampleTick 0x001800AF 7) 0x001800AF rfl).2 (by decide) (by decide)).1,
   ((handle_08_tick (sampleTick 0x001800B0 7) 0x001800B0 rfl).2 (by decide) (by decide)).1,
   ((handle_08_tick (sampleTick 0x001800B0 7) 0x001800B0 rfl).2 (by decide)
      (by decide)).2.2 (by decide)⟩

/-! ## The periodic-enable invariant -/

/-- C4, amended: the predicate "periodic-enable bit set in Status B iff a wait
is pending" is preserved by `set_usertimer`, `clear_usertimer`, `handle_70`,
SET_ALARM (`handle_1a06`) and CLEAR_ALARM (`handle_1a07`) for every input and
every outcome of the update-in-progress poll, and by WRITE_TIME
(`handle_1a03`) and WRITE_DATE (`handle_1a05`) when the poll does not time out.
When the poll times out, both re-initialise Status B through `init_rtc`: the
periodic-enable bit ends up clear and `rtc_wait_flag` is left as it was. -/
theorem wait_invariant_preserved (m : Machine) (h : wait_invariant m) :
    (∀ usecs seg offset, wait_invariant (set_usertimer usecs seg offset m).2)
    ∧ wait_invariant (clear_usertimer m)
    ∧ wait_invariant (handle_70 m)
    ∧ (∀ regs, wait_invariant (handle_1a06 regs m).2)
    ∧ (∀ regs, wait_invariant (handle_1a07 regs m).2)
    ∧ (∀ regs, (rtc_updating m).1 = 0 →
        wait_invariant (handle_1a03 regs m).2 ∧ wait_invariant (handle_1a05 regs m).2)
    ∧ (∀ regs, (rtc_updating m).1 ≠ 0 →
        statusB (handle_1a03 regs m).2 &&& RTC_B_PIE = 0
        ∧ (handle_1a03 regs m).2.bda.rtc_wait_flag = m.bda.rtc_wait_flag
        ∧ statusB (handle_1a05 regs m).2 &&& RTC_B_PIE = 0
        ∧ (handle_1a05 regs m).2.bda.rtc_wait_flag = m.bda.rtc_wait_flag) := by
  obtain ⟨n, _, hn, hret⟩ := rtc_updating_frame m
  have hx := mod_byte_lt (m.cmos CMOS_STATUS_B)
  have hinv := h
  simp only [wait_invariant, statusB, inb_cmos, wait_pending, RTC_B_PIE,
    RWS_WAIT_PENDING] at hinv
  refine ⟨?_, ?_, ?_, ?_, ?_, ?_, ?_⟩
  · intro usecs seg offset
    by_cases hp : m.bda.rtc_wait_flag % 256 &&& 1 = 0
    · have hs := byte_set_pie _ hx
      simp only [set_usertimer, RWS_WAIT_PENDING, hp, wait_invariant, statusB, inb_cmos,
        outb_cmos, wait_pending, RTC_B_PIE]
      simp at hs ⊢
      exact hs
    · have hp1 : m.bda.rtc_wait_flag % 256 &&& RWS_WAIT_PENDING ≠ 0 := hp
      have hm : (set_usertimer usecs seg offset m).2 = m := by
        simp only [set_usertimer, if_pos hp1]
      rw [hm]
      exact h
  · have hc := byte_clear_pie _ hx
    simp only [clear_usertimer, wait_invariant, statusB, inb_cmos, outb_cmos, wait_pending,
      RTC_B_PIE, RWS_WAIT_PENDING, bitnot]
    simp at hc ⊢
    exact hc
  · rcases handle_70_cases m with ⟨hb, hc, _⟩ | ⟨hb, hc⟩ | ⟨hb, hc, _⟩
    · simp only [wait_invariant, statusB, inb_cmos, wait_pending, RTC_B_PIE,
        RWS_WAIT_PENDING, hb, hc]
      exact hinv
    · have hclr := byte_clear_pie _ hx
      simp only [wait_invariant, statusB, inb_cmos, wait_pending, RTC_B_PIE,
        RWS_WAIT_PENDING, hb, hc]
      simp at hclr ⊢
      exact hclr
    · simp only [wait_invariant, statusB, inb_cmos, wait_pending, RTC_B_PIE,
        RWS_WAIT_PENDING, hb, hc]
      exact hinv
  · intro regs
    by_cases ha : m.cmos CMOS_STATUS_B % 256 &&& 0x20 = 0
    · have h6 := byte_1a06 _ hx
      have hB : statusB (handle_1a06 regs m).2
          = (m.cmos CMOS_STATUS_B % 256 &&& 0xFFFFFF7F ||| 0x20) % 256 % 256 := by
        rcases hret with h0 | h1
        · simp [handle_1a06, inb_cmos, ha, hn, h0, outb_cmos, after_polls, statusB,
            RTC_B_AIE, RTC_B_SET, bitnot, set_success]
        · simp [handle_1a06, inb_cmos, ha, hn, h1, outb_cmos, after_polls, statusB,
            RTC_B_AIE, RTC_B_SET, bitnot, set_success, init_rtc]
      have hF : (handle_1a06 regs m).2.bda = m.bda := by
        rcases hret with h0 | h1
        · simp [handle_1a06, inb_cmos, ha, hn, h0, outb_cmos, after_polls, set_success]
        · simp [handle_1a06, inb_cmos, ha, hn, h1, outb_cmos, after_polls, set_success,
            init_rtc]
      simp only [wait_invariant, wait_pending, hB, hF, RTC_B_PIE, RWS_WAIT_PENDING, h6]
      exact hinv
    · have hm : (handle_1a06 regs m).2 = m := by
        simp [handle_1a06, inb_cmos, ha]
      rw [hm]
      exact h
  · intro regs
    have h7 := byte_1a07 _ hx
    have hB : statusB (handle_1a07 regs m).2
        = (m.cmos CMOS_STATUS_B % 256 &&& 0xFFFFFF5F) % 256 % 256 := by
      simp [handle_1a07, inb_cmos, outb_cmos, statusB, RTC_B_AIE, RTC_B_SET, bitnot]
    have hF : (handle_1a07 regs m).2.bda = m.bda := by
      simp [handle_1a07, inb_cmos, outb_cmos]
    simp only [wait_invariant, wait_pending, hB, hF, RTC_B_PIE, RWS_WAIT_PENDING, h7]
    exact hinv
  · intro regs h0
    have h3 := byte_1a03 _ hx _ (and_one_lt_two regs.dl)
    have h5 := byte_1a05 _ hx
    have hB3 : statusB (handle_1a03 regs m).2
        = (m.cmos CMOS_STATUS_B % 256 &&& 0x60 ||| 0x02 ||| regs.dl &&& 1) % 256 % 256 := by
      simp [handle_1a03, inb_cmos, hn, h0, outb_cmos, after_polls, statusB]
    have hF3 : (handle_1a03 regs m).2.bda = m.bda := by
      simp [handle_1a03, inb_cmos, hn, h0, outb_cmos, after_polls]
    have hB5 : statusB (handle_1a05 regs m).2
        = (m.cmos CMOS_STATUS_B % 256 &&& 0xFFFFFF7F) % 256 % 256 := by
      simp [handle_1a05, inb_cmos, hn, h0, outb_cmos, after_polls, statusB, RTC_B_SET,
        bitnot]
    have hF5 : (handle_1a05 regs m).2.bda = m.bda := by
      simp [handle_1a05, inb_cmos, hn, h0, outb_cmos, after_polls]
    constructor
    · simp only [wait_invariant, wait_pending, hB3, hF3, RTC_B_PIE, RWS_WAIT_PENDING, h3]
      exact hinv
    · simp only [wait_invariant, wait_pending, hB5, hF5, RTC_B_PIE, RWS_WAIT_PENDING, h5]
      exact hinv
  · intro regs h1
    exact write_timeout_reinit m regs h1

/-- C4, as stated, fails: with a wait pending, the periodic interrupt enabled
(Status B = 0x42) and the update-in-progress bit stuck, the invariant holds
before WRITE_TIME and before WRITE_DATE and is broken after either: the poll
times out, `init_rtc` rewrites Status B and the wait is still pending. -/
theorem wait_invariant_write_counterexample :
    wait_invariant (sampleRtc 0x80 0x42 1)
    ∧ (rtc_updating (sampleRtc 0x80 0x42 1)).1 = 1
    ∧ ¬ wait_invariant (handle_1a03 sampleRegs (sampleRtc 0x80 0x42 1)).2
    ∧ ¬ wait_invariant (handle_1a05 sampleRegs (sampleRtc 0x80 0x42 1)).2 := by
  have hto : (rtc_updating (sampleRtc 0x80 0x42 1)).1 = 1 := by
    rw [rtc_updating_timeout _ (fun i _ => by simp [uip_set, sampleRtc])]
  have hw := write_timeout_reinit (sampleRtc 0x80 0x42 1) sampleRegs (by rw [hto]; decide)
  have hp3 : wait_pending (handle_1a03 sampleRegs (sampleRtc 0x80 0x42 1)).2 := by
    unfold wait_pending
    rw [hw.2.1]
    decide
  have hp5 : wait_pending (handle_1a05 sampleRegs (sampleRtc 0x80 0x42 1)).2 := by
    unfold wait_pending
    rw [hw.2.2.2]
    decide
  exact ⟨by decide, hto, fun hinv => hinv.mpr hp3 hw.1, fun hinv => hinv.mpr hp5 hw.2.2.1⟩

/-- Witness of the amended C4 on a state with a wait pending and the periodic
interrupt enabled. -/
theorem wait_invariant_preserved_witness :
    wait_invariant (sampleRtc 0 0x42 1)
    ∧ wait_invariant (set_usertimer 100000 0x40 0x10 (sampleRtc 0 0x42 1)).2
    ∧ wait_invariant (clear_usertimer (sampleRtc 0 0x42 1))
    ∧ wait_invariant (handle_70 (sampleRtc 0 0x42 1))
    ∧ wait_invariant (handle_1a06 sampleRegs (sampleRtc 0 0x42 1)).2
    ∧ wait_invariant (handle_1a07 sampleRegs (sampleRtc 0 0x42 1)).2 :=
  have h := wait_invariant_preserved (sampleRtc 0 0x42 1) (by decide)
  ⟨by decide, h.1 100000 0x40 0x10, h.2.1, h.2.2.1, h.2.2.2.1 sampleRegs,
    h.2.2.2.2.1 sampleRegs⟩

/-! ## SLEEP and SET_INTERVAL -/

/-- Two 16 bit halves packed as `(hi << 16) | lo` and taken apart again. -/
theorem segoff_decode (s o : Nat) (hs : s < 65536) (ho : o < 65536) :
    s * 65536 ||| o = s * 65536 + o
    ∧ ((s * 65536 ||| o) % 4294967296) >>> 16 % 65536 = s
    ∧ ((s * 65536 ||| o) % 4294967296 &&& 0xffff) % 65536 = o := by
  have hor : s * 65536 ||| o = s * 65536 + o := by
    have h := Nat.mul_add_lt_is_or (i := 16) (b := o) (by norm_num; exact ho) s
    norm_num at h
    rw [Nat.mul_comm 65536 s] at h
    exact h.symm
  have hand : ∀ x : Nat, x &&& 0xffff = x % 65536 := fun x => by
    have h := Nat.and_pow_two_sub_one_eq_mod x 16
    norm_num at h
    exact h
  refine ⟨hor, ?_, ?_⟩
  · rw [hor, Nat.shiftRight_eq_div_pow]
    norm_num
    omega
  · rw [hor, hand]
    omega

/-- The register CX:DX as a 32 bit number, and ES:BX as a far pointer. -/
theorem regs_cx_lt (regs : Bregs) : regs.cx < 65536 ∧ regs.dx < 65536 ∧ regs.bx < 65536 := by
  simp only [Bregs.cx, Bregs.dx, Bregs.bx]
  omega

/-- C5: with a wait pending, SLEEP (`handle_1586`, through the 16bit `usleep`)
returns at once, for every duration in CX:DX and without entering the wait
loop, with AH = 0x83 and carry set; `user_wait_timeout`,
`ptr_user_wait_complete_flag`, `rtc_wait_flag` (the whole BIOS data area) and
every CMOS register, Status B included, are unchanged. -/
theorem handle_1586_clock_in_use (env : Machine → Machine) (fuel ss addr : Nat)
    (regs : Bregs) (m : Machine) (hW : wait_pending m) :
    ∃ r m', handle_1586 env fuel ss addr regs m = some (r, m')
      ∧ r.ah = 0x83 ∧ r.cf = true
      ∧ r = set_code_fail regs RET_ECLOCKINUSE
      ∧ m'.bda.user_wait_timeout = m.bda.user_wait_timeout
      ∧ m'.bda.ptr_user_wait_complete_flag = m.bda.ptr_user_wait_complete_flag
      ∧ m'.bda.rtc_wait_flag = m.bda.rtc_wait_flag
      ∧ m'.bda = m.bda
      ∧ statusB m' = statusB m
      ∧ m'.cmos = m.cmos
      ∧ m'.trace = m.trace := by
  have hp : (SET_FARVAR ss addr 0 m).bda.rtc_wait_flag % 256 &&& RWS_WAIT_PENDING ≠ 0 := hW
  have hs : set_usertimer ((regs.cx * 65536 ||| regs.dx) % 4294967296) ss addr
      (SET_FARVAR ss addr 0 m) = (-1, SET_FARVAR ss addr 0 m) := by
    simp only [set_usertimer, if_pos hp]
  refine ⟨set_code_fail regs RET_ECLOCKINUSE, SET_FARVAR ss addr 0 m, ?_, ?_, ?_, rfl,
    rfl, rfl, rfl, rfl, rfl, rfl, rfl⟩
  · simp [handle_1586, usleep, hs]
  · simp [set_code_fail, RET_ECLOCKINUSE]
  · simp [set_code_fail]

/-- Witness of C5: SLEEP for 0x07080901 microseconds while a wait with 5000
microseconds left is pending. -/
theorem handle_1586_clock_in_use_witness :
    wait_pending (sampleWait 5000)
    ∧ ∃ r m', handle_1586 handle_70 0 0x30 0xFFE sampleRegs (sampleWait 5000) = some (r, m')
      ∧ r.ah = 0x83 ∧ r.cf = true
      ∧ r = set_code_fail sampleRegs RET_ECLOCKINUSE
      ∧ m'.bda.user_wait_timeout = (sampleWait 5000).bda.user_wait_timeout
      ∧ m'.bda.ptr_user_wait_complete_flag
          = (sampleWait 5000).bda.ptr_user_wait_complete_flag
      ∧ m'.bda.rtc_wait_flag = (sampleWait 5000).bda.rtc_wait_flag
      ∧ m'.bda = (sampleWait 5000).bda
      ∧ statusB m' = statusB (sampleWait 5000)
      ∧ m'.cmos = (sampleWait 5000).cmos
      ∧ m'.trace = (sampleWait 5000).trace :=
  ⟨by decide,
    handle_1586_clock_in_use handle_70 0 0x30 0xFFE sampleRegs (sampleWait 5000) (by decide)⟩

/-- C6, as stated, fails: with a wait pending SET_INTERVAL fails with
AH = 0x86 (`RET_EUNSUPPORTED`), not with the code 0x83 (`RET_ECLOCKINUSE`)
that SLEEP returns from the same state. -/
theorem handle_158300_status_counterexample :
    wait_pending (sampleWait 5000)
    ∧ (handle_158300 sampleRegs (sampleWait 5000)).1.cf = true
    ∧ (handle_158300 sampleRegs (sampleWait 5000)).1.ah = 0x86
    ∧ (handle_158300 sampleRegs (sampleWait 5000)).1.ah ≠ RET_ECLOCKINUSE
    ∧ (handle_1586 handle_70 0 0x30 0xFFE sampleRegs (sampleWait 5000)).map
        (fun r => r.1.ah) = some RET_ECLOCKINUSE := by
  decide

/-- C6, amended: SET_INTERVAL (`handle_158300`) uses the admission test of
SLEEP but not its status code.  With a wait pending it fails with carry set
and AH = `RET_EUNSUPPORTED` (0x86) and changes nothing; with no wait pending
it stores CX:DX as the remaining time and ES:BX as the completion target,
marks the wait pending, sets the periodic-enable bit (the other bits of
Status B are kept) and returns success without entering a wait loop. -/
theorem handle_158300_admission (regs : Bregs) (m : Machine) (hes : regs.es < 65536) :
    (wait_pending m →
      handle_158300 regs m = (set_code_fail regs RET_EUNSUPPORTED, m)
        ∧ (handle_158300 regs m).1.ah = 0x86
        ∧ (handle_158300 regs m).1.cf = true)
    ∧ (¬ wait_pending m →
      (handle_158300 regs m).1 = set_success regs
        ∧ (handle_158300 regs m).1.cf = false
        ∧ (handle_158300 regs m).2.bda.user_wait_timeout = regs.cx * 65536 + regs.dx
        ∧ wait_segment (handle_158300 regs m).2 = regs.es
        ∧ wait_offset (handle_158300 regs m).2 = regs.bx
        ∧ (handle_158300 regs m).2.bda.rtc_wait_flag = RWS_WAIT_PENDING
        ∧ wait_pending (handle_158300 regs m).2
        ∧ statusB (handle_158300 regs m).2 = statusB m ||| RTC_B_PIE
        ∧ statusB (handle_158300 regs m).2 &&& RTC_B_PIE ≠ 0
        ∧ (handle_158300 regs m).2.mem = m.mem
        ∧ (handle_158300 regs m).2.trace = m.trace) := by
  obtain ⟨hcx, hdx, hbx⟩ := regs_cx_lt regs
  constructor
  · intro hW
    have hp : m.bda.rtc_wait_flag % 256 &&& RWS_WAIT_PENDING ≠ 0 := hW
    have hs : set_usertimer ((regs.cx * 65536 ||| regs.dx) % 4294967296) regs.es regs.bx m
        = (-1, m) := by
      simp only [set_usertimer, if_pos hp]
    refine ⟨?_, ?_, ?_⟩ <;> simp [handle_158300, hs, set_code_fail, RET_EUNSUPPORTED]
  · intro hW
    have hp : ¬ (m.bda.rtc_wait_flag % 256 &&& RWS_WAIT_PENDING ≠ 0) := hW
    obtain ⟨htime, _, _⟩ := segoff_decode regs.cx regs.dx hcx hdx
    obtain ⟨_, hseg, hoff⟩ := segoff_decode regs.es regs.bx hes hbx
    have hes' : regs.es % 65536 = regs.es := Nat.mod_eq_of_lt hes
    have hbx' : regs.bx % 65536 = regs.bx := Nat.mod_eq_of_lt hbx
    have hor := byte_or_40 (m.cmos CMOS_STATUS_B % 256) (mod_byte_lt _)
    have hset := byte_set_pie (m.cmos CMOS_STATUS_B % 256) (mod_byte_lt _)
    have hm : (handle_158300 regs m).2 =
        outb_cmos (m.cmos CMOS_STATUS_B % 256 ||| RTC_B_PIE) CMOS_STATUS_B
          { m with bda := { m.bda with
              rtc_wait_flag := RWS_WAIT_PENDING % 256
              ptr_user_wait_complete_flag :=
                ((regs.es % 65536) * 65536 ||| (regs.bx % 65536)) % 4294967296
              user_wait_timeout :=
                ((regs.cx * 65536 ||| regs.dx) % 4294967296) % 4294967296 } } := by
      simp only [handle_158300, set_usertimer, if_neg hp]
      rfl
    have hr : (handle_158300 regs m).1 = set_success regs := by
      simp only [handle_158300, set_usertimer, if_neg hp]
      rfl
    rw [hm, hr, hes', hbx']
    refine ⟨rfl, rfl, ?_, ?_, ?_, rfl, ?_, ?_, ?_, rfl, rfl⟩
    · show ((regs.cx * 65536 ||| regs.dx) % 4294967296) % 4294967296 = _
      rw [htime]
      omega
    · simp only [wait_segment, outb_cmos, Nat.mod_mod]
      exact hseg
    · simp only [wait_offset, outb_cmos, Nat.mod_mod]
      exact hoff
    · show (RWS_WAIT_PENDING % 256) % 256 &&& RWS_WAIT_PENDING ≠ 0
      decide
    · show (m.cmos CMOS_STATUS_B % 256 ||| RTC_B_PIE) % 256 % 256 = _
      simp only [statusB, inb_cmos, RTC_B_PIE]
      exact hor
    · show (m.cmos CMOS_STATUS_B % 256 ||| RTC_B_PIE) % 256 % 256 &&& RTC_B_PIE ≠ 0
      exact hset

/-- Witness of the amended C6: SET_INTERVAL on a state without a pending
wait. -/
theorem handle_158300_admission_witness :
    sampleRegs.es < 65536 ∧ ¬ wait_pending (sampleRtc 0 0x02 0)
    ∧ (handle_158300 sampleRegs (sampleRtc 0 0x02 0)).1.cf = false
    ∧ (handle_158300 sampleRegs (sampleRtc 0 0x02 0)).2.bda.user_wait_timeout
        = sampleRegs.cx * 65536 + sampleRegs.dx
    ∧ wait_segment (handle_158300 sampleRegs (sampleRtc 0 0x02 0)).2 = sampleRegs.es
    ∧ wait_offset (handle_158300 sampleRegs (sampleRtc 0 0x02 0)).2 = sampleRegs.bx :=
  have h := (handle_158300_admission sampleRegs (sampleRtc 0 0x02 0) (by decide)).2
    (by decide)
  ⟨by decide, by decide, h.2.1, h.2.2.1, h.2.2.2.1, h.2.2.2.2.1⟩

/-! ## The bounded poll and the services behind it -/

/-- C7: `rtc_updating` is total and its poll is bounded.  It returns 0 at the
first reading of Status A whose update-in-progress bit is clear, having taken
no reading beyond it, that reading being one of the 24999 the loop takes; if
the bit is set in all 24999 readings it returns 1 after exactly 24999
readings.  Nothing but the number of readings taken changes, and no other
outcome exists. -/
theorem rtc_updating_bounded (m : Machine) :
    (∀ k, k < 24999 → (∀ i, i < k → uip_set m i) → ¬ uip_set m k →
      rtc_updating m = (0, after_polls m (k + 1)))
    ∧ ((∀ i, i < 24999 → uip_set m i) → rtc_updating m = (1, after_polls m 24999))
    ∧ (∃ n, n ≤ 24999 ∧ (rtc_updating m).2 = after_polls m n
        ∧ (((rtc_updating m).1 = 0 ∧ 1 ≤ n ∧ ¬ uip_set m (n - 1)
              ∧ ∀ i, i < n - 1 → uip_set m i)
          ∨ ((rtc_updating m).1 = 1 ∧ n = 24999 ∧ ∀ i, i < 24999 → uip_set m i))) := by
  refine ⟨?_, rtc_updating_timeout m, ?_⟩
  · intro k hk hbusy hclear
    rw [rtc_updating, rtc_updating_loop_clear k 24999 m hk hbusy hclear]
  · by_cases h : ∀ i, i < 24999 → uip_set m i
    · refine ⟨24999, le_refl _, ?_, Or.inr ⟨?_, rfl, h⟩⟩ <;>
        rw [rtc_updating_timeout m h]
    · have hex : ∃ k, k < 24999 ∧ ¬ uip_set m k := by
        by_contra hne
        exact h (fun i hi => by
          by_contra hc
          exact hne ⟨i, hi, hc⟩)
      classical
      let k := Nat.find hex
      have hk : k < 24999 ∧ ¬ uip_set m k := Nat.find_spec hex
      have hmin : ∀ i, i < k → uip_set m i := fun i hi => by
        by_contra hc
        exact Nat.find_min hex hi ⟨by omega, hc⟩
      have hl := rtc_updating_loop_clear k 24999 m hk.1 hmin hk.2
      refine ⟨k + 1, by omega, by rw [rtc_updating, hl], Or.inl ⟨?_, by omega, ?_, ?_⟩⟩
      · rw [rtc_updating, hl]
      · simpa using hk.2
      · simpa using hmin

/-- Witness of C7: the bit clears at the third reading (0 after 3 readings),
and the bit never clears (1 after 24999 readings). -/
theorem rtc_updating_bounded_witness :
    ((∀ i, i < 2 → uip_set (sampleSettle 2) i) ∧ ¬ uip_set (sampleSettle 2) 2
      ∧ rtc_updating (sampleSettle 2) = (0, after_polls (sampleSettle 2) (2 + 1)))
    ∧ ((∀ i, i < 24999 → uip_set (sampleRtc 0x80 0x02 0) i)
      ∧ rtc_updating (sampleRtc 0x80 0x02 0) = (1, after_polls (sampleRtc 0x80 0x02 0) 24999)) :=
  have hbusy : ∀ i, i < 24999 → uip_set (sampleRtc 0x80 0x02 0) i :=
    fun i _ => by simp [uip_set, sampleRtc]
  ⟨⟨by decide, by decide,
      (rtc_updating_bounded (sampleSettle 2)).1 2 (by decide) (by decide) (by decide)⟩,
    hbusy, (rtc_updating_bounded (sampleRtc 0x80 0x02 0)).2.1 hbusy⟩

/-- C8, as stated, fails: with the update-in-progress bit permanently set
WRITE_TIME does not return the ClockBusy failure; it returns success (carry
clear, AH = 0). -/
theorem write_time_busy_counterexample :
    (∀ i, uip_set (sampleRtc 0x80 0x42 1) i)
    ∧ (rtc_updating (sampleRtc 0x80 0x42 1)).1 = 1
    ∧ (handle_1a03 sampleRegs (sampleRtc 0x80 0x42 1)).1.cf = false
    ∧ (handle_1a03 sampleRegs (sampleRtc 0x80 0x42 1)).1.ah = 0 := by
  have hbusy : ∀ i, uip_set (sampleRtc 0x80 0x42 1) i :=
    fun i => by simp [uip_set, sampleRtc]
  refine ⟨hbusy, ?_, (handle_1a03_success _ _).1, (handle_1a03_success _ _).2⟩
  rw [rtc_updating_timeout _ (fun i _ => hbusy i)]

theorem byte_reinit_dst : ∀ d < 2,
    ((0x02 % 256 % 256 &&& 0x60 ||| 0x02 ||| d) % 256) % 256 = 0x02 ||| d
    ∧ (0x02 % 256 % 256 &&& 0x60 ||| 0x02 ||| d) % 256 = 0x02 ||| d := by
  decide

/-- WRITE_TIME when the poll times out: `init_rtc` runs (0x26 to Status A,
0x02 to Status B, Status C and D read), then the time is stored and Status B
rebuilt from the re-initialised value. -/
theorem handle_1a03_timeout (regs : Bregs) (m : Machine) (h : (rtc_updating m).1 ≠ 0) :
    (handle_1a03 regs m).2.cmos CMOS_STATUS_A = 0x26
    ∧ (handle_1a03 regs m).2.cmos CMOS_STATUS_B = 0x02 ||| (regs.dl &&& 0x01)
    ∧ (handle_1a03 regs m).1.al = 0x02 ||| (regs.dl &&& 0x01)
    ∧ (handle_1a03 regs m).2.cmos CMOS_RTC_SECONDS = regs.dh % 256
    ∧ (handle_1a03 regs m).2.cmos CMOS_RTC_MINUTES = regs.cl % 256
    ∧ (handle_1a03 regs m).2.cmos CMOS_RTC_HOURS = regs.ch % 256
    ∧ (handle_1a03 regs m).2.irq_flags = 0
    ∧ (∀ r, r ≠ CMOS_STATUS_A → r ≠ CMOS_STATUS_B → r ≠ CMOS_RTC_SECONDS →
        r ≠ CMOS_RTC_MINUTES → r ≠ CMOS_RTC_HOURS →
        (handle_1a03 regs m).2.cmos r = m.cmos r) := by
  obtain ⟨n, _, hn, _⟩ := rtc_updating_frame m
  obtain ⟨d1, d2⟩ := byte_reinit_dst (regs.dl &&& 0x01) (and_one_lt_two regs.dl)
  have hB : (handle_1a03 regs m).2.cmos CMOS_STATUS_B
      = ((0x02 % 256 % 256 &&& 0x60 ||| 0x02 ||| regs.dl &&& 0x01) % 256) % 256 := by
    simp only [handle_1a03, if_pos h, init_rtc, inb_cmos, outb_cmos]
    rfl
  have hAL : (handle_1a03 regs m).1.al
      = (0x02 % 256 % 256 &&& 0x60 ||| 0x02 ||| regs.dl &&& 0x01) % 256 := by
    simp only [handle_1a03, if_pos h, init_rtc, inb_cmos, outb_cmos]
    rfl
  refine ⟨?_, hB.trans d1, hAL.trans d2, ?_, ?_, ?_, ?_, ?_⟩
  · simp only [handle_1a03, if_pos h, init_rtc, inb_cmos, outb_cmos]
    rfl
  · simp only [handle_1a03, if_pos h, init_rtc, inb_cmos, outb_cmos]
    rfl
  · simp only [handle_1a03, if_pos h, init_rtc, inb_cmos, outb_cmos]
    rfl
  · simp only [handle_1a03, if_pos h, init_rtc, inb_cmos, outb_cmos]
    rfl
  · simp only [handle_1a03, if_pos h, init_rtc, inb_cmos, outb_cmos]
  · intro r hA hB' hS hM hH
    simp [handle_1a03, h, hn, init_rtc, inb_cmos, outb_cmos, after_polls, hA, hB', hS, hM, hH]

/-- C8, amended: with the update-in-progress bit permanently set, READ_TIME
(`handle_1a02`), READ_DATE (`handle_1a04`) and WRITE_DATE (`handle_1a05`)
return the ClockBusy failure (carry set) for every input, each after exactly
24999 readings of Status A and with no register of the caller loaded.
WRITE_TIME (`handle_1a03`) does not fail: after the same 24999 readings it
re-initialises the RTC (Status A becomes 0x26, Status B is rebuilt from the
re-initialised value 0x02, so that it ends as `0x02 | (DL & 0x01)` whatever it
held, and the latched flags of Status C are read), writes the time (DH, CL, CH
to the seconds, minutes and hours registers), leaves the other registers alone
and returns success (carry clear, AH = 0, AL = the Status B value written). -/
theorem rtc_services_uip_stuck (regs : Bregs) (m : Machine) (h : ∀ i, uip_set m i) :
    ((handle_1a02 regs m).1.cf = true ∧ (handle_1a02 regs m).2.polls = m.polls + 24999
        ∧ (handle_1a02 regs m).1 = set_fail regs)
    ∧ ((handle_1a04 regs m).1.cf = true ∧ (handle_1a04 regs m).2.polls = m.polls + 24999
        ∧ (handle_1a04 regs m).1 = set_fail { regs with ah := 0 })
    ∧ ((handle_1a05 regs m).1.cf = true ∧ (handle_1a05 regs m).2.polls = m.polls + 24999
        ∧ (handle_1a05 regs m).1 = set_fail regs)
    ∧ ((handle_1a03 regs m).1.cf = false ∧ (handle_1a03 regs m).1.ah = 0
        ∧ (handle_1a03 regs m).2.polls = m.polls + 24999
        ∧ (handle_1a03 regs m).2.cmos CMOS_STATUS_A = 0x26
        ∧ (handle_1a03 regs m).2.cmos CMOS_STATUS_B = 0x02 ||| (regs.dl &&& 0x01)
        ∧ (handle_1a03 regs m).1.al = 0x02 ||| (regs.dl &&& 0x01)
        ∧ (handle_1a03 regs m).2.cmos CMOS_RTC_SECONDS = regs.dh % 256
        ∧ (handle_1a03 regs m).2.cmos CMOS_RTC_MINUTES = regs.cl % 256
        ∧ (handle_1a03 regs m).2.cmos CMOS_RTC_HOURS = regs.ch % 256
        ∧ (handle_1a03 regs m).2.irq_flags = 0
        ∧ (∀ r, r ≠ CMOS_STATUS_A → r ≠ CMOS_STATUS_B → r ≠ CMOS_RTC_SECONDS →
            r ≠ CMOS_RTC_MINUTES → r ≠ CMOS_RTC_HOURS →
            (handle_1a03 regs m).2.cmos r = m.cmos r)) := by
  have hto := rtc_updating_timeout m (fun i _ => h i)
  have h1 : (rtc_updating m).1 ≠ 0 := by rw [hto]; exact Nat.one_ne_zero
  have h3 := handle_1a03_timeout regs m h1
  rw [handle_1a02_timeout regs m h1, handle_1a04_timeout regs m h1,
    handle_1a05_timeout regs m h1]
  refine ⟨⟨rfl, ?_, rfl⟩, ⟨rfl, ?_, rfl⟩, ⟨rfl, ?_, rfl⟩, (handle_1a03_success regs m).1,
    (handle_1a03_success regs m).2, ?_, h3⟩
  · rw [hto]; rfl
  · rw [hto]; rfl
  · rw [hto]; rfl
  · simp [handle_1a03, hto, init_rtc, inb_cmos, outb_cmos, after_polls]

/-- Witness of the amended C8 on a state whose Status A always reads 0x80,
with 0x2F stored in Status A and 0x42 in Status B. -/
theorem rtc_services_uip_stuck_witness :
    (∀ i, uip_set (sampleRtc 0x80 0x42 1) i)
    ∧ (handle_1a02 sampleRegs (sampleRtc 0x80 0x42 1)).1.cf = true
    ∧ (handle_1a04 sampleRegs (sampleRtc 0x80 0x42 1)).1.cf = true
    ∧ (handle_1a05 sampleRegs (sampleRtc 0x80 0x42 1)).1.cf = true
    ∧ (handle_1a03 sampleRegs (sampleRtc 0x80 0x42 1)).1.cf = false
    ∧ (handle_1a03 sampleRegs (sampleRtc 0x80 0x42 1)).2.cmos CMOS_STATUS_A = 0x26
    ∧ (handle_1a03 sampleRegs (sampleRtc 0x80 0x42 1)).2.cmos CMOS_STATUS_B
        = 0x02 ||| (sampleRegs.dl &&& 0x01)
    ∧ (handle_1a03 sampleRegs (sampleRtc 0x80 0x42 1)).2.cmos CMOS_RTC_SECONDS
        = sampleRegs.dh % 256 :=
  have hbusy : ∀ i, uip_set (sampleRtc 0x80 0x42 1) i :=
    fun i => by simp [uip_set, sampleRtc]
  have h := rtc_services_uip_stuck sampleRegs (sampleRtc 0x80 0x42 1) hbusy
  ⟨hbusy, h.1.1, h.2.1.1, h.2.2.1.1, h.2.2.2.1, h.2.2.2.2.2.2.1, h.2.2.2.2.2.2.2.1,
    h.2.2.2.2.2.2.2.2.2.1⟩

/-- C9, as stated, fails: when the poll times out WRITE_DATE fails with
ClockBusy but does not leave the registers alone; Status B goes from 0x42 to
0x02 and Status A from 0x2F to 0x26. -/
theorem write_date_busy_counterexample :
    (rtc_updating (sampleRtc 0x80 0x42 1)).1 = 1
    ∧ (handle_1a05 sampleRegs (sampleRtc 0x80 0x42 1)).1.cf = true
    ∧ (sampleRtc 0x80 0x42 1).cmos CMOS_STATUS_B = 0x42
    ∧ (handle_1a05 sampleRegs (sampleRtc 0x80 0x42 1)).2.cmos CMOS_STATUS_B = 0x02
    ∧ (sampleRtc 0x80 0x42 1).cmos CMOS_STATUS_A = 0x2F
    ∧ (handle_1a05 sampleRegs (sampleRtc 0x80 0x42 1)).2.cmos CMOS_STATUS_A = 0x26 := by
  have hto := rtc_updating_timeout (sampleRtc 0x80 0x42 1)
    (fun i _ => by simp [uip_set, sampleRtc])
  have h1 : (rtc_updating (sampleRtc 0x80 0x42 1)).1 ≠ 0 := by
    rw [hto]; exact Nat.one_ne_zero
  rw [handle_1a05_timeout _ _ h1, init_rtc_cmos, hto]
  exact ⟨rfl, rfl, rfl, rfl, rfl, rfl⟩

/-- C9, amended: whenever the poll times out, READ_TIME (`handle_1a02`) and
READ_DATE (`handle_1a04`) fail with ClockBusy and leave every CMOS register
as it was.  WRITE_DATE (`handle_1a05`) fails with ClockBusy too and leaves the
time, date and century registers as they were, but it runs `init_rtc`, which
writes 0x26 to Status A and 0x02 to Status B. -/
theorem clock_busy_frame (regs : Bregs) (m : Machine) (h : (rtc_updating m).1 = 1) :
    ((handle_1a02 regs m).1.cf = true ∧ (handle_1a02 regs m).2.cmos = m.cmos)
    ∧ ((handle_1a04 regs m).1.cf = true ∧ (handle_1a04 regs m).2.cmos = m.cmos)
    ∧ ((handle_1a05 regs m).1.cf = true
        ∧ (handle_1a05 regs m).2.cmos CMOS_STATUS_A = 0x26
        ∧ (handle_1a05 regs m).2.cmos CMOS_STATUS_B = 0x02
        ∧ ∀ r, r ≠ CMOS_STATUS_A → r ≠ CMOS_STATUS_B →
            (handle_1a05 regs m).2.cmos r = m.cmos r) := by
  have h1 : (rtc_updating m).1 ≠ 0 := by rw [h]; exact Nat.one_ne_zero
  rw [handle_1a02_timeout regs m h1, handle_1a04_timeout regs m h1,
    handle_1a05_timeout regs m h1, init_rtc_cmos, rtc_updating_cmos]
  refine ⟨⟨rfl, rfl⟩, ⟨rfl, rfl⟩, rfl, rfl, rfl, ?_⟩
  intro r hA hB
  simp [hA, hB]

/-- Witness of the amended C9 on a state whose Status A always reads 0x80. -/
theorem clock_busy_frame_witness :
    (rtc_updating (sampleRtc 0x80 0x42 1)).1 = 1
    ∧ (handle_1a02 sampleRegs (sampleRtc 0x80 0x42 1)).2.cmos = (sampleRtc 0x80 0x42 1).cmos
    ∧ (handle_1a04 sampleRegs (sampleRtc 0x80 0x42 1)).2.cmos = (sampleRtc 0x80 0x42 1).cmos
    ∧ (handle_1a05 sampleRegs (sampleRtc 0x80 0x42 1)).2.cmos CMOS_RTC_YEAR
        = (sampleRtc 0x80 0x42 1).cmos CMOS_RTC_YEAR :=
  have hto : (rtc_updating (sampleRtc 0x80 0x42 1)).1 = 1 := by
    rw [rtc_updating_timeout _ (fun i _ => by simp [uip_set, sampleRtc])]
  have h := clock_busy_frame sampleRegs (sampleRtc 0x80 0x42 1) hto
  ⟨hto, h.1.2, h.2.1.2, h.2.2.2.2.2 CMOS_RTC_YEAR (by decide) (by decide)⟩

/-! ## WRITE_TIME followed by READ_TIME -/

theorem byte_dst : ∀ x < 256, ∀ d < 2,
    ((x &&& 0x60 ||| 0x02 ||| d) % 256) % 256 % 256 &&& 0x01 = d := by
  decide

/-- C10: WRITE_TIME with the bytes DH, CL, CH and the daylight saving flag in
DL, followed by READ_TIME, the update-in-progress bit being clear at the
reading each of them takes and the registers untouched in between: both
succeed and READ_TIME returns DH, CL, CH as written and DL equal to the flag
written, bit 0 of the DL given (DL itself when it is 0 or 1). -/
theorem write_time_read_time (regs regs' : Bregs) (m : Machine)
    (hdh : regs.dh < 256) (hcl : regs.cl < 256) (hch : regs.ch < 256)
    (hw : ¬ uip_set m 0) (hr : ¬ uip_set m 1) :
    (handle_1a03 regs m).1.cf = false
    ∧ (handle_1a02 regs' (handle_1a03 regs m).2).1.cf = false
    ∧ (handle_1a02 regs' (handle_1a03 regs m).2).1.dh = regs.dh
    ∧ (handle_1a02 regs' (handle_1a03 regs m).2).1.cl = regs.cl
    ∧ (handle_1a02 regs' (handle_1a03 regs m).2).1.ch = regs.ch
    ∧ (handle_1a02 regs' (handle_1a03 regs m).2).1.dl = regs.dl &&& 0x01
    ∧ (regs.dl ≤ 1 → (handle_1a02 regs' (handle_1a03 regs m).2).1.dl = regs.dl) := by
  have hwr := rtc_updating_ready m hw
  have hd := byte_dst (m.cmos CMOS_STATUS_B % 256) (mod_byte_lt _) (regs.dl &&& 0x01)
    (and_one_lt_two regs.dl)
  have hpolls : (handle_1a03 regs m).2.polls = m.polls + 1
      ∧ (handle_1a03 regs m).2.statusA = m.statusA := by
    simp [handle_1a03, hwr, inb_cmos, outb_cmos, after_polls]
  have hr' : ¬ uip_set (handle_1a03 regs m).2 0 := by
    simpa [uip_set, hpolls.1, hpolls.2] using hr
  have hrd := rtc_updating_ready _ hr'
  have hcm : (handle_1a03 regs m).2.cmos = (fun r =>
      if r = CMOS_STATUS_B then
        ((m.cmos CMOS_STATUS_B % 256 &&& 0x60 ||| 0x02 ||| regs.dl &&& 0x01) % 256) % 256
      else if r = CMOS_RTC_HOURS then regs.ch % 256
      else if r = CMOS_RTC_MINUTES then regs.cl % 256
      else if r = CMOS_RTC_SECONDS then regs.dh % 256
      else m.cmos r) := by
    simp only [handle_1a03, hwr, inb_cmos, outb_cmos, after_polls]
    rfl
  have hdl : regs.dl ≤ 1 → regs.dl &&& 0x01 = regs.dl := by
    intro hle
    have : ∀ d < 2, d &&& 0x01 = d := by decide
    exact this _ (by omega)
  have key : (handle_1a02 regs' (handle_1a03 regs m).2).1 =
      set_success { regs' with
        dh := regs.dh % 256 % 256, cl := regs.cl % 256 % 256, ch := regs.ch % 256 % 256,
        dl := ((m.cmos CMOS_STATUS_B % 256 &&& 0x60 ||| 0x02 ||| regs.dl &&& 0x01) % 256)
          % 256 % 256 &&& 0x01,
        ah := 0, al := regs.ch % 256 % 256 } := by
    simp only [handle_1a02, hrd, inb_cmos, after_polls, hcm]
    rfl
  rw [key]
  refine ⟨(handle_1a03_success regs m).1, rfl, ?_, ?_, ?_, hd, fun hle => ?_⟩
  · show regs.dh % 256 % 256 = regs.dh
    omega
  · show regs.cl % 256 % 256 = regs.cl
    omega
  · show regs.ch % 256 % 256 = regs.ch
    omega
  · exact hd.trans (hdl hle)

/-- Witness of C10: 07:08:09 with the daylight saving flag set is written
over 12:34:56 and read back. -/
theorem write_time_read_time_witness :
    (sampleRegs.dh < 256 ∧ sampleRegs.cl < 256 ∧ sampleRegs.ch < 256
      ∧ ¬ uip_set (sampleRtc 0 0x42 1) 0 ∧ ¬ uip_set (sampleRtc 0 0x42 1) 1)
    ∧ (handle_1a02 sampleRegs (handle_1a03 sampleRegs (sampleRtc 0 0x42 1)).2).1.cf = false
    ∧ (handle_1a02 sampleRegs (handle_1a03 sampleRegs (sampleRtc 0 0x42 1)).2).1.dh = 0x09
    ∧ (handle_1a02 sampleRegs (handle_1a03 sampleRegs (sampleRtc 0 0x42 1)).2).1.cl = 0x08
    ∧ (handle_1a02 sampleRegs (handle_1a03 sampleRegs (sampleRtc 0 0x42 1)).2).1.ch = 0x07
    ∧ (handle_1a02 sampleRegs (handle_1a03 sampleRegs (sampleRtc 0 0x42 1)).2).1.dl = 0x01 :=
  have h := write_time_read_time sampleRegs sampleRegs (sampleRtc 0 0x42 1)
    (by decide) (by decide) (by decide) (by decide) (by decide)
  ⟨⟨by decide, by decide, by decide, by decide, by decide⟩,
    h.2.1, h.2.2.1, h.2.2.2.1, h.2.2.2.2.1, h.2.2.2.2.2.2 (by decide)⟩

/-! ## GET_TICK_COUNT -/

/-- A 32 bit value split into the bytes of CX and DX and put together
again. -/
theorem split_cx_dx (t : Nat) (ht : t < 4294967296) :
    (((t >>> 16) / 256 % 256) % 256 * 256 + ((t >>> 16) % 256) % 256) * 65536
      + (((t / 256 % 256) % 256) * 256 + (t % 256) % 256) = t := by
  rw [Nat.shiftRight_eq_div_pow]
  norm_num
  omega

/-- C11: GET_TICK_COUNT (`handle_1a00`) returns CX:DX equal to
`timer_counter` and AL equal to `timer_rollover`, succeeds, leaves
`timer_counter` as it was and sets `timer_rollover` to 0; a second call with
no tick in between returns AL = 0 and the same CX and DX. -/
theorem handle_1a00_tick_count (regs regs2 : Bregs) (m : Machine)
    (hc : m.bda.timer_counter < 4294967296) (hr : m.bda.timer_rollover < 256) :
    (handle_1a00 regs m).1.cx * 65536 + (handle_1a00 regs m).1.dx = m.bda.timer_counter
    ∧ (handle_1a00 regs m).1.al = m.bda.timer_rollover
    ∧ (handle_1a00 regs m).1.cf = false
    ∧ (handle_1a00 regs m).2.bda.timer_counter = m.bda.timer_counter
    ∧ (handle_1a00 regs m).2.bda.timer_rollover = 0
    ∧ (handle_1a00 regs2 (handle_1a00 regs m).2).1.al = 0
    ∧ (handle_1a00 regs2 (handle_1a00 regs m).2).1.cx = (handle_1a00 regs m).1.cx
    ∧ (handle_1a00 regs2 (handle_1a00 regs m).2).1.dx = (handle_1a00 regs m).1.dx
    ∧ (handle_1a00 regs2 (handle_1a00 regs m).2).2.bda.timer_counter
        = m.bda.timer_counter := by
  have hmod : m.bda.timer_counter % 4294967296 = m.bda.timer_counter := Nat.mod_eq_of_lt hc
  have hro : m.bda.timer_rollover % 256 = m.bda.timer_rollover := Nat.mod_eq_of_lt hr
  have hsplit := split_cx_dx m.bda.timer_counter hc
  refine ⟨?_, ?_, rfl, rfl, rfl, rfl, rfl, rfl, rfl⟩
  · simp only [handle_1a00, set_success, Bregs.set_cx, Bregs.set_dx, Bregs.cx, Bregs.dx, hmod]
    exact hsplit
  · simp only [handle_1a00, set_success, hro]

/-- Witness of C11: 0x0012ABCD ticks with a rollover count of 1 are read
twice. -/
theorem handle_1a00_tick_count_witness :
    ((sampleTick 0x0012ABCD 1).bda.timer_counter < 4294967296
      ∧ (sampleTick 0x0012ABCD 1).bda.timer_rollover < 256)
    ∧ (handle_1a00 sampleRegs (sampleTick 0x0012ABCD 1)).1.cx * 65536
        + (handle_1a00 sampleRegs (sampleTick 0x0012ABCD 1)).1.dx = 0x0012ABCD
    ∧ (handle_1a00 sampleRegs (sampleTick 0x0012ABCD 1)).1.al = 1
    ∧ (handle_1a00 sampleRegs (handle_1a00 sampleRegs (sampleTick 0x0012ABCD 1)).2).1.al = 0 :=
  have h := handle_1a00_tick_count sampleRegs sampleRegs (sampleTick 0x0012ABCD 1)
    (by decide) (by decide)
  ⟨⟨by decide, by decide⟩, h.1, h.2.1, h.2.2.2.2.2.1⟩

/-! ## SET_ALARM with the alarm already enabled -/

/-- C12: with the alarm-enable bit set in Status B, SET_ALARM (`handle_1a06`)
fails with carry set (and AX = 0) for every input and returns the machine
exactly as it was: the alarm registers, Status B and every other CMOS register
are untouched and no reading of Status A is taken, so the update-in-progress
poll has not run. -/
theorem handle_1a06_already_set (regs : Bregs) (m : Machine)
    (hA : statusB m &&& RTC_B_AIE ≠ 0) :
    (handle_1a06 regs m).1.cf = true
    ∧ (handle_1a06 regs m).1 = set_fail { regs with al := 0, ah := 0 }
    ∧ (handle_1a06 regs m).2 = m
    ∧ (handle_1a06 regs m).2.cmos CMOS_RTC_SECONDS_ALARM = m.cmos CMOS_RTC_SECONDS_ALARM
    ∧ (handle_1a06 regs m).2.cmos CMOS_RTC_MINUTES_ALARM = m.cmos CMOS_RTC_MINUTES_ALARM
    ∧ (handle_1a06 regs m).2.cmos CMOS_RTC_HOURS_ALARM = m.cmos CMOS_RTC_HOURS_ALARM
    ∧ (handle_1a06 regs m).2.cmos CMOS_STATUS_B = m.cmos CMOS_STATUS_B
    ∧ (handle_1a06 regs m).2.cmos = m.cmos
    ∧ (handle_1a06 regs m).2.polls = m.polls := by
  have h20 : (inb_cmos CMOS_STATUS_B m).1 &&& 0x20 ≠ 0 := hA
  have hres : handle_1a06 regs m = (set_fail { regs with al := 0, ah := 0 }, m) := by
    simp only [handle_1a06, if_pos h20]
    rfl
  rw [hres]
  exact ⟨rfl, rfl, rfl, rfl, rfl, rfl, rfl, rfl, rfl⟩

/-- Witness of C12: SET_ALARM on a state whose Status B is 0x22. -/
theorem handle_1a06_already_set_witness :
    statusB (sampleRtc 0 0x22 0) &&& RTC_B_AIE ≠ 0
    ∧ (handle_1a06 sampleRegs (sampleRtc 0 0x22 0)).1.cf = true
    ∧ (handle_1a06 sampleRegs (sampleRtc 0 0x22 0)).2 = sampleRtc 0 0x22 0 :=
  have h := handle_1a06_already_set sampleRegs (sampleRtc 0 0x22 0) (by decide)
  ⟨by decide, h.1, h.2.2.1⟩

/-! ## CLEAR_INTERVAL -/

theorem byte_clear_pie_twice : ∀ x < 256,
    (((x &&& 0xFFFFFFBF) % 256) % 256 &&& 0xFFFFFFBF) % 256 = (x &&& 0xFFFFFFBF) % 256
    ∧ ((x &&& 0xFFFFFFBF) % 256) % 256 = x &&& 0xBF
    ∧ (x &&& 0xBF) &&& 0x40 = 0
    ∧ (x &&& 0xBF) &&& 0xBF = x &&& 0xBF := by
  decide

/-- C13: CLEAR_INTERVAL (`handle_158301`, through `clear_usertimer`) succeeds
from every state, leaves `rtc_wait_flag` equal to 0 and Status B equal to its
old value with bit 0x40 cleared (every other bit as before), changes nothing
else, and is idempotent: a second run returns exactly the state the first one
left. -/
theorem handle_158301_clear (regs regs2 : Bregs) (m : Machine) :
    (handle_158301 regs m).1.cf = false
    ∧ (handle_158301 regs m).1 = set_success regs
    ∧ (handle_158301 regs m).2.bda.rtc_wait_flag = 0
    ∧ ¬ wait_pending (handle_158301 regs m).2
    ∧ statusB (handle_158301 regs m).2 &&& RTC_B_PIE = 0
    ∧ statusB (handle_158301 regs m).2 = statusB m &&& 0xBF
    ∧ statusB (handle_158301 regs m).2 &&& 0xBF = statusB m &&& 0xBF
    ∧ (∀ r, r ≠ CMOS_STATUS_B → (handle_158301 regs m).2.cmos r = m.cmos r)
    ∧ (handle_158301 regs m).2.mem = m.mem
    ∧ (handle_158301 regs m).2.trace = m.trace
    ∧ (handle_158301 regs2 (handle_158301 regs m).2).2 = (handle_158301 regs m).2
    ∧ clear_usertimer (clear_usertimer m) = clear_usertimer m
    ∧ (handle_158301 regs2 (handle_158301 regs m).2).1.cf = false := by
  have hb := byte_clear_pie_twice (m.cmos CMOS_STATUS_B % 256) (mod_byte_lt _)
  have hB : statusB (clear_usertimer m) = m.cmos CMOS_STATUS_B % 256 &&& 0xBF := by
    simp only [statusB, clear_usertimer, inb_cmos, outb_cmos, bitnot, RTC_B_PIE]
    exact hb.2.1
  have hidem : clear_usertimer (clear_usertimer m) = clear_usertimer m := by
    simp only [clear_usertimer, inb_cmos, outb_cmos, bitnot, RTC_B_PIE]
    congr 1
    funext r
    by_cases hr : r = CMOS_STATUS_B
    · simp only [hr, if_true]
      exact hb.1
    · simp only [hr, if_false]
  refine ⟨rfl, rfl, rfl, ?_, ?_, ?_, ?_, ?_, rfl, rfl, hidem, hidem, rfl⟩
  · show ¬ ((0 : Nat) % 256 &&& RWS_WAIT_PENDING ≠ 0)
    decide
  · show statusB (clear_usertimer m) &&& RTC_B_PIE = 0
    rw [hB]
    exact hb.2.2.1
  · show statusB (clear_usertimer m) = statusB m &&& 0xBF
    rw [hB]
    rfl
  · show statusB (clear_usertimer m) &&& 0xBF = statusB m &&& 0xBF
    rw [hB]
    exact hb.2.2.2
  · intro r hr
    simp [handle_158301, clear_usertimer, inb_cmos, outb_cmos, hr]

/-- Witness of C13: CLEAR_INTERVAL twice on a state with a wait pending. -/
theorem handle_158301_clear_witness :
    (handle_158301 sampleRegs (sampleWait 5000)).2.bda.rtc_wait_flag = 0
    ∧ statusB (handle_158301 sampleRegs (sampleWait 5000)).2 = 0x02
    ∧ (handle_158301 sampleRegs (handle_158301 sampleRegs (sampleWait 5000)).2).2
        = (handle_158301 sampleRegs (sampleWait 5000)).2 :=
  have h := handle_158301_clear sampleRegs sampleRegs (sampleWait 5000)
  ⟨h.2.2.1, h.2.2.2.2.2.1, h.2.2.2.2.2.2.2.2.2.2.1⟩

/-! ## Status B after WRITE_TIME and WRITE_DATE -/

/-- Status B and AL after WRITE_TIME when the poll finds the bit clear. -/
theorem handle_1a03_ready (regs : Bregs) (m : Machine) (hw : ¬ uip_set m 0) :
    statusB (handle_1a03 regs m).2
        = ((statusB m &&& 0x60 ||| 0x02 ||| regs.dl &&& 0x01) % 256) % 256 % 256
    ∧ (handle_1a03 regs m).1.al = (statusB m &&& 0x60 ||| 0x02 ||| regs.dl &&& 0x01) % 256 := by
  have hwr := rtc_updating_ready m hw
  constructor
  · simp only [statusB, handle_1a03, hwr, inb_cmos, outb_cmos, after_polls]
    rfl
  · simp only [statusB, handle_1a03, hwr, inb_cmos, outb_cmos, after_polls]
    rfl

/-- Status B and AL after WRITE_DATE when the poll finds the bit clear. -/
theorem handle_1a05_ready (regs : Bregs) (m : Machine) (hw : ¬ uip_set m 0) :
    statusB (handle_1a05 regs m).2 = ((statusB m &&& 0xFFFFFF7F) % 256) % 256 % 256
    ∧ (handle_1a05 regs m).1.al = (statusB m &&& 0xFFFFFF7F) % 256 := by
  have hwr := rtc_updating_ready m hw
  have h0 : ¬ ((0 : Nat) ≠ 0) := fun h => h rfl
  constructor
  · simp only [statusB, handle_1a05, hwr, if_neg h0, inb_cmos, outb_cmos, after_polls,
      bitnot, RTC_B_SET]
    rfl
  · simp only [statusB, handle_1a05, hwr, if_neg h0, inb_cmos, outb_cmos, after_polls,
      bitnot, RTC_B_SET]
    rfl

theorem byte_write_time : ∀ x < 256, ∀ d < 2,
    ((x &&& 0x60 ||| 0x02 ||| d) % 256) % 256 % 256 = x &&& 0x60 ||| 0x02 ||| d
    ∧ (x &&& 0x60 ||| 0x02 ||| d) % 256 = x &&& 0x60 ||| 0x02 ||| d
    ∧ (x &&& 0x60 ||| 0x02 ||| d) &&& 0x80 = 0
    ∧ (x &&& 0x60 ||| 0x02 ||| d) &&& 0x02 = 0x02
    ∧ (x &&& 0x60 ||| 0x02 ||| d) &&& 0x01 = d
    ∧ (x &&& 0x60 ||| 0x02 ||| d) &&& 0x60 = x &&& 0x60 := by
  decide

theorem byte_write_date : ∀ x < 256,
    ((x &&& 0xFFFFFF7F) % 256) % 256 % 256 = x &&& 0x7F
    ∧ (x &&& 0xFFFFFF7F) % 256 = x &&& 0x7F
    ∧ (x &&& 0x7F) &&& 0x80 = 0
    ∧ (x &&& 0x7F) &&& 0x01 = x &&& 0x01
    ∧ (x &&& 0x7F) &&& 0x02 = x &&& 0x02
    ∧ (x &&& 0x7F) &&& 0x7F = x &&& 0x7F := by
  decide

/-- C14, as stated, fails for WRITE_TIME: from Status B = 0x00, with the
update-in-progress bit clear and DL = 1, WRITE_TIME writes 0x03 to Status B,
so neither the daylight-saving flag (0x01) nor the 24-hour flag (0x02) has the
value it had before the call. -/
theorem write_time_flags_counterexample :
    ¬ uip_set (sampleRtc 0 0x00 0) 0
    ∧ statusB (sampleRtc 0 0x00 0) &&& 0x01 = 0
    ∧ statusB (sampleRtc 0 0x00 0) &&& 0x02 = 0
    ∧ statusB (handle_1a03 sampleRegs (sampleRtc 0 0x00 0)).2 = 0x03
    ∧ statusB (handle_1a03 sampleRegs (sampleRtc 0 0x00 0)).2 &&& 0x01 ≠ 0
    ∧ statusB (handle_1a03 sampleRegs (sampleRtc 0 0x00 0)).2 &&& 0x02 ≠ 0 := by
  have hw : ¬ uip_set (sampleRtc 0 0x00 0) 0 := by decide
  have h := (handle_1a03_ready sampleRegs (sampleRtc 0 0x00 0) hw).1
  have hv : statusB (handle_1a03 sampleRegs (sampleRtc 0 0x00 0)).2 = 0x03 := by
    rw [h]
    decide
  rw [hv]
  exact ⟨hw, by decide, by decide, rfl, by decide, by decide⟩

/-- C14, amended: with the update-in-progress bit clear, WRITE_DATE
(`handle_1a05`) writes back Status B with the halt-clock bit (0x80) cleared
and every other bit, the daylight-saving (0x01) and 24-hour (0x02) flags
included, as before.  WRITE_TIME (`handle_1a03`) writes back
`(B & 0x60) | 0x02 | (DL & 0x01)`: the halt-clock bit clear, the bits 0x40 and
0x20 as before, the 24-hour flag set and the daylight-saving flag taken from
DL.  Both return in AL the value written. -/
theorem write_status_b (regs : Bregs) (m : Machine) (hw : ¬ uip_set m 0) :
    (statusB (handle_1a03 regs m).2 = statusB m &&& 0x60 ||| 0x02 ||| regs.dl &&& 0x01
      ∧ statusB (handle_1a03 regs m).2 &&& 0x80 = 0
      ∧ statusB (handle_1a03 regs m).2 &&& 0x02 = 0x02
      ∧ statusB (handle_1a03 regs m).2 &&& 0x01 = regs.dl &&& 0x01
      ∧ statusB (handle_1a03 regs m).2 &&& 0x60 = statusB m &&& 0x60
      ∧ (handle_1a03 regs m).1.al = statusB (handle_1a03 regs m).2)
    ∧ (statusB (handle_1a05 regs m).2 = statusB m &&& 0x7F
      ∧ statusB (handle_1a05 regs m).2 &&& 0x80 = 0
      ∧ statusB (handle_1a05 regs m).2 &&& 0x01 = statusB m &&& 0x01
      ∧ statusB (handle_1a05 regs m).2 &&& 0x02 = statusB m &&& 0x02
      ∧ statusB (handle_1a05 regs m).2 &&& 0x7F = statusB m &&& 0x7F
      ∧ (handle_1a05 regs m).1.al = statusB (handle_1a05 regs m).2) := by
  have hx : statusB m < 256 := mod_byte_lt _
  obtain ⟨h3b, h3a⟩ := handle_1a03_ready regs m hw
  obtain ⟨h5b, h5a⟩ := handle_1a05_ready regs m hw
  obtain ⟨t1, t2, t3, t4, t5, t6⟩ :=
    byte_write_time (statusB m) hx (regs.dl &&& 0x01) (and_one_lt_two regs.dl)
  obtain ⟨d1, d2, d3, d4, d5, d6⟩ := byte_write_date (statusB m) hx
  rw [h3b, h3a, h5b, h5a, t1, t2, d1, d2]
  exact ⟨⟨rfl, t3, t4, t5, t6, rfl⟩, rfl, d3, d4, d5, d6, rfl⟩

/-- Witness of the amended C14: both writes from Status B = 0xC1. -/
theorem write_status_b_witness :
    ¬ uip_set (sampleRtc 0 0xC1 0) 0
    ∧ statusB (handle_1a03 sampleRegs (sampleRtc 0 0xC1 0)).2
        = statusB (sampleRtc 0 0xC1 0) &&& 0x60 ||| 0x02 ||| sampleRegs.dl &&& 0x01
    ∧ statusB (handle_1a05 sampleRegs (sampleRtc 0 0xC1 0)).2
        = statusB (sampleRtc 0 0xC1 0) &&& 0x7F :=
  have h := write_status_b sampleRegs (sampleRtc 0 0xC1 0) (by decide)
  ⟨by decide, h.1.1, h.2.1⟩

/-! ## CLEAR_ALARM -/

/-- C17, the code at the failing input: with Status B = 0x20 CLEAR_ALARM
(`handle_1a07`) succeeds (AH = 0, carry clear) and writes 0x00 to Status B,
but AL holds 0x20, the value read before the write, not the value written. -/
theorem handle_1a07_al_is_value_read :
    statusB (sampleRtc 0 0x20 0) = 0x20
    ∧ (handle_1a07 sampleRegs (sampleRtc 0 0x20 0)).1.ah = 0
    ∧ (handle_1a07 sampleRegs (sampleRtc 0 0x20 0)).1.cf = false
    ∧ statusB (handle_1a07 sampleRegs (sampleRtc 0 0x20 0)).2 = 0x00
    ∧ (handle_1a07 sampleRegs (sampleRtc 0 0x20 0)).1.al = 0x20
    ∧ (handle_1a07 sampleRegs (sampleRtc 0 0x20 0)).1.al
        ≠ statusB (handle_1a07 sampleRegs (sampleRtc 0 0x20 0)).2 := by
  decide

/-! ## End-of-interrupt acknowledgement -/

/-- The events `handle_70` adds to the trace: the alarm callback, when an RTC
interrupt is enabled and the alarm fired, and then the acknowledgement. -/
theorem handle_70_trace (m : Machine) :
    (handle_70 m).trace = m.trace
      ++ (if m.cmos CMOS_STATUS_B % 256 &&& 0x60 ≠ 0 ∧ m.irq_flags % 256 &&& 0x20 ≠ 0
          then [Event.call16_int 0x4a, Event.irq_disable] else [])
      ++ [Event.eoi_pic2] := by
  by_cases hB : m.cmos CMOS_STATUS_B % 256 &&& 0x60 = 0
  · simp [handle_70, inb_cmos, Machine.log, RTC_B_PIE, RTC_B_AIE, hB]
  · by_cases hA : m.irq_flags % 256 &&& 0x20 = 0 <;>
    by_cases hC : m.irq_flags % 256 &&& 0x40 = 0 <;>
    by_cases hW : m.bda.rtc_wait_flag % 256 = 0 <;>
    by_cases hlt : m.bda.user_wait_timeout % 4294967296 < 977 <;>
      simp [handle_70, inb_cmos, Machine.log, RTC_B_PIE, RTC_B_AIE, hB, hA, hC, hW, hlt,
        clear_usertimer, SET_FARVAR, outb_cmos]

/-- The events `handle_08` adds to the trace. -/
theorem handle_08_trace (m : Machine) :
    (handle_08 m).trace = m.trace ++ [Event.irq_enable, Event.floppy_tick,
      Event.call16_int 0x1c, Event.irq_disable, Event.eoi_pic1] := by
  by_cases h : 0x001800B0 ≤ (m.bda.timer_counter + 1) % 4294967296 <;>
    simp [handle_08, Machine.log, h]

/-- C15: every run of `handle_70`, whatever path it takes, appends to the
trace at most the alarm callback (with its `irq_disable`) and then exactly one
`eoi_pic2`, which is the last event; every run of `handle_08` appends
`irq_enable`, `floppy_tick`, the INT 1Ch hook, `irq_disable` and then exactly
one `eoi_pic1`, which is the last event. -/
theorem interrupt_acknowledged_once (m : Machine) :
    (∃ pre, (handle_70 m).trace = m.trace ++ pre ++ [Event.eoi_pic2]
        ∧ (pre = [] ∨ pre = [Event.call16_int 0x4a, Event.irq_disable])
        ∧ pre.count Event.eoi_pic2 = 0)
    ∧ ((handle_70 m).trace.drop m.trace.length).count Event.eoi_pic2 = 1
    ∧ (handle_70 m).trace.getLast? = some Event.eoi_pic2
    ∧ (handle_08 m).trace = m.trace ++ [Event.irq_enable, Event.floppy_tick,
        Event.call16_int 0x1c, Event.irq_disable, Event.eoi_pic1]
    ∧ ((handle_08 m).trace.drop m.trace.length).count Event.eoi_pic1 = 1
    ∧ (handle_08 m).trace.getLast? = some Event.eoi_pic1 := by
  have h70 := handle_70_trace m
  have h08 := handle_08_trace m
  refine ⟨?_, ?_, ?_, h08, ?_, ?_⟩
  · by_cases hc : m.cmos CMOS_STATUS_B % 256 &&& 0x60 ≠ 0
        ∧ m.irq_flags % 256 &&& 0x20 ≠ 0
    · rw [if_pos hc] at h70
      exact ⟨_, h70, Or.inr rfl, by decide⟩
    · rw [if_neg hc] at h70
      exact ⟨_, h70, Or.inl rfl, by decide⟩
  · by_cases hc : m.cmos CMOS_STATUS_B % 256 &&& 0x60 ≠ 0
        ∧ m.irq_flags % 256 &&& 0x20 ≠ 0
    · rw [if_pos hc] at h70
      rw [h70, List.append_assoc, List.drop_left]
      decide
    · rw [if_neg hc] at h70
      rw [h70, List.append_assoc, List.drop_left]
      decide
  · rw [h70]
    simp
  · rw [h08, List.drop_left]
    decide
  · rw [h08]
    simp

/-- Witness of C15: the five paths of `handle_70` (nothing enabled, alarm
only, periodic with no wait, wait continuing, wait completing) and the two of
`handle_08` (no rollover, rollover). -/
theorem interrupt_acknowledged_once_witness :
    (handle_70 (sampleIrq 0x02 0x60 1 500)).trace = [Event.eoi_pic2]
    ∧ (handle_70 (sampleIrq 0x22 0x20 0 0)).trace
        = [Event.call16_int 0x4a, Event.irq_disable, Event.eoi_pic2]
    ∧ (handle_70 (sampleIrq 0x42 0x40 0 0)).trace = [Event.eoi_pic2]
    ∧ (handle_70 (sampleIrq 0x42 0x40 1 5000)).trace = [Event.eoi_pic2]
    ∧ (handle_70 (sampleIrq 0x42 0x40 1 500)).trace = [Event.eoi_pic2]
    ∧ ((handle_70 (sampleIrq 0x62 0x60 1 500)).trace.drop
        (sampleIrq 0x62 0x60 1 500).trace.length).count Event.eoi_pic2 = 1
    ∧ (handle_08 (sampleTick 5 0)).trace.getLast? = some Event.eoi_pic1
    ∧ (handle_08 (sampleTick 0x001800AF 0)).trace.getLast? = some Event.eoi_pic1 :=
  ⟨by decide, by decide, by decide, by decide, by decide,
    (interrupt_acknowledged_once (sampleIrq 0x62 0x60 1 500)).2.1,
    (interrupt_acknowledged_once (sampleTick 5 0)).2.2.2.2.2,
    (interrupt_acknowledged_once (sampleTick 0x001800AF 0)).2.2.2.2.2⟩

/-! ## Runs of the RTC interrupt that find nothing to do -/

/-- C16: when neither the periodic-enable nor the alarm-enable bit of Status
B is set, and also when the periodic source fired but `rtc_wait_flag` is 0, a
run of `handle_70` leaves `rtc_wait_flag`, `user_wait_timeout`,
`ptr_user_wait_complete_flag` (the whole data area), Status B (every CMOS
register) and the byte at the completion target (all of memory) unchanged; in
the first case the only event is the acknowledgement, so the alarm callback is
not invoked. -/
theorem handle_70_nothing_to_do (m : Machine) :
    (statusB m &&& (RTC_B_PIE ||| RTC_B_AIE) = 0 →
      (handle_70 m).bda.rtc_wait_flag = m.bda.rtc_wait_flag
        ∧ (handle_70 m).bda.user_wait_timeout = m.bda.user_wait_timeout
        ∧ (handle_70 m).bda.ptr_user_wait_complete_flag = m.bda.ptr_user_wait_complete_flag
        ∧ (handle_70 m).bda = m.bda
        ∧ statusB (handle_70 m) = statusB m
        ∧ (handle_70 m).cmos = m.cmos
        ∧ GET_FARVAR (wait_segment m) (wait_offset m) (handle_70 m)
            = GET_FARVAR (wait_segment m) (wait_offset m) m
        ∧ (handle_70 m).mem = m.mem
        ∧ (handle_70 m).trace = m.trace ++ [Event.eoi_pic2]
        ∧ Event.call16_int 0x4a ∉ (handle_70 m).trace.drop m.trace.length)
    ∧ (statusC m &&& 0x40 ≠ 0 → m.bda.rtc_wait_flag = 0 →
      (handle_70 m).bda.rtc_wait_flag = m.bda.rtc_wait_flag
        ∧ (handle_70 m).bda.user_wait_timeout = m.bda.user_wait_timeout
        ∧ (handle_70 m).bda.ptr_user_wait_complete_flag = m.bda.ptr_user_wait_complete_flag
        ∧ (handle_70 m).bda = m.bda
        ∧ statusB (handle_70 m) = statusB m
        ∧ (handle_70 m).cmos = m.cmos
        ∧ GET_FARVAR (wait_segment m) (wait_offset m) (handle_70 m)
            = GET_FARVAR (wait_segment m) (wait_offset m) m
        ∧ (handle_70 m).mem = m.mem) := by
  constructor
  · intro hB
    have hB0 : m.cmos CMOS_STATUS_B % 256 &&& 0x60 = 0 := by
      simpa [statusB, inb_cmos, RTC_B_PIE, RTC_B_AIE] using hB
    have hb : (handle_70 m).bda = m.bda := by
      simp [handle_70, inb_cmos, Machine.log, RTC_B_PIE, RTC_B_AIE, hB0]
    have hc : (handle_70 m).cmos = m.cmos := by
      simp [handle_70, inb_cmos, Machine.log, RTC_B_PIE, RTC_B_AIE, hB0]
    have hm : (handle_70 m).mem = m.mem := by
      simp [handle_70, inb_cmos, Machine.log, RTC_B_PIE, RTC_B_AIE, hB0]
    have ht : (handle_70 m).trace = m.trace ++ [Event.eoi_pic2] := by
      simp [handle_70, inb_cmos, Machine.log, RTC_B_PIE, RTC_B_AIE, hB0]
    refine ⟨by rw [hb], by rw [hb], by rw [hb], hb, ?_, hc, ?_, hm, ht, ?_⟩
    · simp only [statusB, inb_cmos, hc]
    · simp only [GET_FARVAR, hm]
    · rw [ht, List.drop_left]
      decide
  · intro hC hW
    have hC0 : m.irq_flags % 256 &&& 0x40 ≠ 0 := by
      simpa [statusC, inb_cmos] using hC
    have hW0 : m.bda.rtc_wait_flag % 256 = 0 := by rw [hW]
    have hall : (handle_70 m).bda = m.bda ∧ (handle_70 m).cmos = m.cmos
        ∧ (handle_70 m).mem = m.mem := by
      by_cases hB : m.cmos CMOS_STATUS_B % 256 &&& 0x60 = 0
      · simp [handle_70, inb_cmos, Machine.log, RTC_B_PIE, RTC_B_AIE, hB]
      · by_cases hA : m.irq_flags % 256 &&& 0x20 = 0 <;>
          simp [handle_70, inb_cmos, Machine.log, RTC_B_PIE, RTC_B_AIE, hB, hA, hC0, hW0]
    obtain ⟨hb, hc, hm⟩ := hall
    refine ⟨by rw [hb], by rw [hb], by rw [hb], hb, ?_, hc, ?_, hm⟩
    · simp only [statusB, inb_cmos, hc]
    · simp only [GET_FARVAR, hm]

/-- Witness of C16: a run with Status B = 0x02 and both sources fired, and a
run with the periodic source fired and no wait registered. -/
theorem handle_70_nothing_to_do_witness :
    (statusB (sampleIrq 0x02 0x60 1 500) &&& (RTC_B_PIE ||| RTC_B_AIE) = 0
      ∧ (handle_70 (sampleIrq 0x02 0x60 1 500)).bda = (sampleIrq 0x02 0x60 1 500).bda
      ∧ (handle_70 (sampleIrq 0x02 0x60 1 500)).trace
          = (sampleIrq 0x02 0x60 1 500).trace ++ [Event.eoi_pic2])
    ∧ (statusC (sampleIrq 0x42 0x40 0 500) &&& 0x40 ≠ 0
      ∧ (sampleIrq 0x42 0x40 0 500).bda.rtc_wait_flag = 0
      ∧ (handle_70 (sampleIrq 0x42 0x40 0 500)).bda = (sampleIrq 0x42 0x40 0 500).bda
      ∧ (handle_70 (sampleIrq 0x42 0x40 0 500)).mem = (sampleIrq 0x42 0x40 0 500).mem) :=
  have h1 := (handle_70_nothing_to_do (sampleIrq 0x02 0x60 1 500)).1 (by decide)
  have h2 := (handle_70_nothing_to_do (sampleIrq 0x42 0x40 0 500)).2 (by decide) rfl
  ⟨⟨by decide, h1.2.2.2.1, h1.2.2.2.2.2.2.2.2.1⟩,
    by decide, rfl, h2.2.2.2.1, h2.2.2.2.2.2.2.2⟩

/-! ## The tick counter stays below one day -/

/-- One tick leaves the counter below the day threshold. -/
theorem handle_08_counter_lt (m : Machine) :
    (handle_08 m).bda.timer_counter < 0x001800B0 := by
  by_cases h : 0x001800B0 ≤ (m.bda.timer_counter + 1) % 4294967296
  · simp [handle_08, Machine.log, h]
  · simp [handle_08, Machine.log, h]
    omega

/-- The services of the poll family leave the tick counter alone. -/
theorem rtc_services_keep_counter (regs : Bregs) (m : Machine) :
    (handle_1a02 regs m).2.bda.timer_counter = m.bda.timer_counter
    ∧ (handle_1a03 regs m).2.bda.timer_counter = m.bda.timer_counter
    ∧ (handle_1a04 regs m).2.bda.timer_counter = m.bda.timer_counter
    ∧ (handle_1a05 regs m).2.bda.timer_counter = m.bda.timer_counter
    ∧ (handle_1a06 regs m).2.bda.timer_counter = m.bda.timer_counter
    ∧ (handle_1a07 regs m).2.bda.timer_counter = m.bda.timer_counter := by
  obtain ⟨n, _, hn, hret⟩ := rtc_updating_frame m
  refine ⟨?_, ?_, ?_, ?_, ?_, ?_⟩
  · rcases hret with h0 | h1 <;>
      simp [handle_1a02, inb_cmos, hn, *, after_polls]
  · rcases hret with h0 | h1 <;>
      simp [handle_1a03, inb_cmos, outb_cmos, init_rtc, hn, *, after_polls]
  · rcases hret with h0 | h1 <;>
      simp [handle_1a04, inb_cmos, hn, *, after_polls]
  · rcases hret with h0 | h1 <;>
      simp [handle_1a05, inb_cmos, outb_cmos, init_rtc, hn, *, after_polls]
  · by_cases ha : m.cmos CMOS_STATUS_B % 256 &&& 0x20 = 0
    · rcases hret with h0 | h1 <;>
        simp [handle_1a06, inb_cmos, outb_cmos, init_rtc, hn, ha, *, after_polls]
    · simp [handle_1a06, inb_cmos, ha]
  · simp [handle_1a07, inb_cmos, outb_cmos]

/-- C19: whatever 32 bit value `timer_counter` holds before the call, values
at or above the day threshold and 0xFFFFFFFF (whose increment wraps to 0)
included, after one run of `handle_08` it is strictly below 0x001800B0; so it is
after any number of further ticks, and the other services of the file, which
do not store into `timer_counter`, keep it there.  SET_TICK_COUNT
(`handle_1a01`) stores CX:DX, whatever it is. -/
theorem handle_08_below_day (m : Machine) :
    (handle_08 m).bda.timer_counter < 0x001800B0
    ∧ (m.bda.timer_counter = 0xFFFFFFFF →
        (handle_08 m).bda.timer_counter = 0
        ∧ (handle_08 m).bda.timer_rollover = m.bda.timer_rollover)
    ∧ (0x001800B0 ≤ m.bda.timer_counter → m.bda.timer_counter < 0xFFFFFFFF →
        (handle_08 m).bda.timer_counter = 0)
    ∧ (∀ n, (handle_08^[n + 1] m).bda.timer_counter < 0x001800B0)
    ∧ (handle_70 m).bda.timer_counter = m.bda.timer_counter
    ∧ (clear_usertimer m).bda.timer_counter = m.bda.timer_counter
    ∧ (∀ usecs seg offset,
        (set_usertimer usecs seg offset m).2.bda.timer_counter = m.bda.timer_counter)
    ∧ (∀ regs, (handle_1a00 regs m).2.bda.timer_counter = m.bda.timer_counter
        ∧ (handle_1a02 regs m).2.bda.timer_counter = m.bda.timer_counter
        ∧ (handle_1a03 regs m).2.bda.timer_counter = m.bda.timer_counter
        ∧ (handle_1a04 regs m).2.bda.timer_counter = m.bda.timer_counter
        ∧ (handle_1a05 regs m).2.bda.timer_counter = m.bda.timer_counter
        ∧ (handle_1a06 regs m).2.bda.timer_counter = m.bda.timer_counter
        ∧ (handle_1a07 regs m).2.bda.timer_counter = m.bda.timer_counter)
    ∧ (∀ regs, (handle_1a01 regs m).2.bda.timer_counter = regs.cx * 65536 + regs.dx) := by
  refine ⟨handle_08_counter_lt m, ?_, ?_, ?_, ?_, rfl, ?_, ?_, ?_⟩
  · intro hc
    simp [handle_08, Machine.log, hc]
  · intro hge hlt
    have h : 0x001800B0 ≤ (m.bda.timer_counter + 1) % 4294967296 := by omega
    simp [handle_08, Machine.log, h]
  · intro n
    rw [Function.iterate_succ_apply']
    exact handle_08_counter_lt _
  · rcases handle_70_cases m with ⟨hb, _, _⟩ | ⟨hb, _⟩ | ⟨hb, _, _⟩ <;> rw [hb]
  · intro usecs seg offset
    by_cases hp : m.bda.rtc_wait_flag % 256 &&& RWS_WAIT_PENDING ≠ 0
    · simp only [set_usertimer, if_pos hp]
    · simp only [set_usertimer, if_neg hp]
      rfl
  · intro regs
    exact ⟨rfl, rtc_services_keep_counter regs m⟩
  · intro regs
    obtain ⟨hcx, hdx, _⟩ := regs_cx_lt regs
    obtain ⟨hor, _, _⟩ := segoff_decode regs.cx regs.dx hcx hdx
    show (regs.cx * 65536 ||| regs.dx) % 4294967296 = _
    rw [hor]
    omega

/-- Witness of C19: one tick from 0xFFFFFFFF, one from 0x07080901 as written
by SET_TICK_COUNT, and three ticks from the day threshold. -/
theorem handle_08_below_day_witness :
    ((sampleTick 0xFFFFFFFF 3).bda.timer_counter = 0xFFFFFFFF
      ∧ (handle_08 (sampleTick 0xFFFFFFFF 3)).bda.timer_counter = 0
      ∧ (handle_08 (sampleTick 0xFFFFFFFF 3)).bda.timer_rollover = 3)
    ∧ ((handle_1a01 sampleRegs (sampleTick 5 0)).2.bda.timer_counter = 0x07080901
      ∧ (handle_08 (handle_1a01 sampleRegs (sampleTick 5 0)).2).bda.timer_counter
          < 0x001800B0)
    ∧ (handle_08^[2 + 1] (sampleTick 0x001800B0 0)).bda.timer_counter < 0x001800B0 :=
  have h1 := (handle_08_below_day (sampleTick 0xFFFFFFFF 3)).2.1 rfl
  ⟨⟨rfl, h1.1, h1.2⟩,
    ⟨(handle_08_below_day (sampleTick 5 0)).2.2.2.2.2.2.2.2 sampleRegs,
      (handle_08_below_day (handle_1a01 sampleRegs (sampleTick 5 0)).2).1⟩,
    (handle_08_below_day (sampleTick 0x001800B0 0)).2.2.2.1 2⟩

/-! ## The initial tick count -/

theorem bcd2bin_digits : ∀ v < 256, bcd2bin v = v / 16 * 10 + v % 16 := by
  decide

/-- The 32 bit arithmetic of `timer_setup` on decoded readings within range:
nothing wraps, and the sum is at most 1573023. -/
theorem ticks_arith (s mi h : Nat) (hs : s ≤ 59) (hm : mi ≤ 59) (hh : h ≤ 23) :
    ((s * 18206507 % 4294967296 / 1000000 + mi * 10923904 % 4294967296 / 10000)
        % 4294967296 + h * 65543427 % 4294967296 / 1000) % 4294967296
      = s * 18206507 / 1000000 + mi * 10923904 / 10000 + h * 65543427 / 1000
    ∧ s * 18206507 / 1000000 + mi * 10923904 / 10000 + h * 65543427 / 1000 ≤ 1573023 := by
  have e1 : s * 18206507 % 4294967296 = s * 18206507 := Nat.mod_eq_of_lt (by omega)
  have e2 : mi * 10923904 % 4294967296 = mi * 10923904 := Nat.mod_eq_of_lt (by omega)
  have e3 : h * 65543427 % 4294967296 = h * 65543427 := Nat.mod_eq_of_lt (by omega)
  have q1 : s * 18206507 / 1000000 ≤ 1074 := by omega
  have q2 : mi * 10923904 / 10000 ≤ 64451 := by omega
  have q3 : h * 65543427 / 1000 ≤ 1507498 := by omega
  rw [e1, e2, e3]
  generalize s * 18206507 / 1000000 = a at q1 ⊢
  generalize mi * 10923904 / 10000 = b at q2 ⊢
  generalize h * 65543427 / 1000 = c at q3 ⊢
  constructor
  · rw [Nat.mod_eq_of_lt (by omega : a + b < 4294967296),
      Nat.mod_eq_of_lt (by omega : a + b + c < 4294967296)]
  · omega

/-- C20: for a valid BCD wall-clock reading (hours 00..23, minutes 00..59,
seconds 00..59) `bcd2bin` decodes each byte, none of the three products of
`timer_setup` exceeds 32 bits, the tick count stored is
`s*18206507/1000000 + m*10923904/10000 + h*65543427/1000`, it is at most
1573023 and so strictly below the day threshold 0x001800B0, and
`timer_rollover` is set to 0. -/
theorem timer_setup_ticks (m : Machine)
    (hH : valid_bcd (m.cmos CMOS_RTC_HOURS) 23)
    (hM : valid_bcd (m.cmos CMOS_RTC_MINUTES) 59)
    (hS : valid_bcd (m.cmos CMOS_RTC_SECONDS) 59) :
    (bcd2bin (m.cmos CMOS_RTC_SECONDS)
        = m.cmos CMOS_RTC_SECONDS / 16 * 10 + m.cmos CMOS_RTC_SECONDS % 16
      ∧ bcd2bin (m.cmos CMOS_RTC_MINUTES)
        = m.cmos CMOS_RTC_MINUTES / 16 * 10 + m.cmos CMOS_RTC_MINUTES % 16
      ∧ bcd2bin (m.cmos CMOS_RTC_HOURS)
        = m.cmos CMOS_RTC_HOURS / 16 * 10 + m.cmos CMOS_RTC_HOURS % 16)
    ∧ (bcd2bin (m.cmos CMOS_RTC_SECONDS) * 18206507 < 4294967296
      ∧ bcd2bin (m.cmos CMOS_RTC_MINUTES) * 10923904 < 4294967296
      ∧ bcd2bin (m.cmos CMOS_RTC_HOURS) * 65543427 < 4294967296)
    ∧ (timer_setup m).bda.timer_counter
        = bcd2bin (m.cmos CMOS_RTC_SECONDS) * 18206507 / 1000000
          + bcd2bin (m.cmos CMOS_RTC_MINUTES) * 10923904 / 10000
          + bcd2bin (m.cmos CMOS_RTC_HOURS) * 65543427 / 1000
    ∧ (timer_setup m).bda.timer_counter ≤ 1573023
    ∧ (timer_setup m).bda.timer_counter < 0x001800B0
    ∧ (timer_setup m).bda.timer_rollover = 0 := by
  obtain ⟨hH1, hH2, hH3⟩ := hH
  obtain ⟨hM1, hM2, hM3⟩ := hM
  obtain ⟨hS1, hS2, hS3⟩ := hS
  have dS := bcd2bin_digits _ hS1
  have dM := bcd2bin_digits _ hM1
  have dH := bcd2bin_digits _ hH1
  have key : (timer_setup m).bda.timer_counter
      = ((bcd2bin (m.cmos CMOS_RTC_SECONDS % 256) * 18206507 % 4294967296 / 1000000
          + bcd2bin (m.cmos CMOS_RTC_MINUTES % 256) * 10923904 % 4294967296 / 10000)
            % 4294967296
          + bcd2bin (m.cmos CMOS_RTC_HOURS % 256) * 65543427 % 4294967296 / 1000)
            % 4294967296 := rfl
  rw [Nat.mod_eq_of_lt hS1, Nat.mod_eq_of_lt hM1, Nat.mod_eq_of_lt hH1] at key
  rw [key]
  have bS : bcd2bin (m.cmos CMOS_RTC_SECONDS) ≤ 59 := by rw [dS]; exact hS3
  have bM : bcd2bin (m.cmos CMOS_RTC_MINUTES) ≤ 59 := by rw [dM]; exact hM3
  have bH : bcd2bin (m.cmos CMOS_RTC_HOURS) ≤ 23 := by rw [dH]; exact hH3
  obtain ⟨hsum, hmax⟩ := ticks_arith _ _ _ bS bM bH
  rw [hsum]
  exact ⟨⟨dS, dM, dH⟩, ⟨by omega, by omega, by omega⟩, rfl, hmax, by omega, rfl⟩

/-- Witness of C20: at 23:59:59 the tick count is 1573023. -/
theorem timer_setup_ticks_witness :
    (valid_bcd ((sampleClock 0x23 0x59 0x59).cmos CMOS_RTC_HOURS) 23
      ∧ valid_bcd ((sampleClock 0x23 0x59 0x59).cmos CMOS_RTC_MINUTES) 59
      ∧ valid_bcd ((sampleClock 0x23 0x59 0x59).cmos CMOS_RTC_SECONDS) 59)
    ∧ (timer_setup (sampleClock 0x23 0x59 0x59)).bda.timer_counter = 1573023
    ∧ (timer_setup (sampleClock 0x23 0x59 0x59)).bda.timer_counter < 0x001800B0
    ∧ (timer_setup (sampleClock 0x23 0x59 0x59)).bda.timer_rollover = 0 :=
  have h := timer_setup_ticks (sampleClock 0x23 0x59 0x59) (by decide) (by decide)
    (by decide)
  ⟨⟨by decide, by decide, by decide⟩, by decide, h.2.2.2.2.1, h.2.2.2.2.2⟩

/-! ## Counting a wait down -/

/-- A run of `handle_70` reads Status C, and so leaves no flag latched. -/
theorem handle_70_reads_flags (m : Machine) : (handle_70 m).irq_flags = 0 := by
  by_cases hB : m.cmos CMOS_STATUS_B % 256 &&& 0x60 = 0
  · simp [handle_70, inb_cmos, Machine.log, RTC_B_PIE, RTC_B_AIE, hB]
  · by_cases hA : m.irq_flags % 256 &&& 0x20 = 0 <;>
    by_cases hC : m.irq_flags % 256 &&& 0x40 = 0 <;>
    by_cases hW : m.bda.rtc_wait_flag % 256 = 0 <;>
    by_cases hlt : m.bda.user_wait_timeout % 4294967296 < 977 <;>
      simp [handle_70, inb_cmos, Machine.log, RTC_B_PIE, RTC_B_AIE, hB, hA, hC, hW, hlt,
        clear_usertimer, SET_FARVAR, outb_cmos]

/-- A run of `handle_70` that finds no flag latched in Status C leaves the
wait, the CMOS registers and memory as they were. -/
theorem handle_70_no_flag (m : Machine) (h0 : m.irq_flags = 0) :
    (handle_70 m).bda = m.bda ∧ (handle_70 m).cmos = m.cmos ∧ (handle_70 m).mem = m.mem := by
  by_cases hB : m.cmos CMOS_STATUS_B % 256 &&& 0x60 = 0
  · simp [handle_70, inb_cmos, Machine.log, RTC_B_PIE, RTC_B_AIE, hB]
  · simp [handle_70, inb_cmos, Machine.log, RTC_B_PIE, RTC_B_AIE, hB, h0]

/-- Successive RTC interrupts on a wait of `d` microseconds, each taken with
the periodic-fired flag latched: the first `d / 977` only subtract, the next
one completes. -/
theorem rtc_irqs_countdown (c : Nat → Nat) (m0 : Machine) (d : Nat)
    (hB : m0.cmos CMOS_STATUS_B % 256 &&& 0x60 ≠ 0)
    (hc : ∀ k, c k % 256 &&& 0x40 ≠ 0)
    (hW : m0.bda.rtc_wait_flag % 256 ≠ 0)
    (hd : m0.bda.user_wait_timeout = d) (h32 : d < 4294967296) :
    (∀ k, k ≤ d / 977 →
      (rtc_irqs c k m0).bda = { m0.bda with user_wait_timeout := d - 977 * k }
        ∧ (rtc_irqs c k m0).cmos = m0.cmos
        ∧ (rtc_irqs c k m0).mem = m0.mem)
    ∧ (rtc_irqs c (d / 977 + 1) m0).bda
        = { m0.bda with rtc_wait_flag := 0, user_wait_timeout := d - 977 * (d / 977) }
    ∧ (rtc_irqs c (d / 977 + 1) m0).cmos = (fun r => if r = CMOS_STATUS_B
          then (m0.cmos CMOS_STATUS_B % 256 &&& 0xFFFFFFBF) % 256 else m0.cmos r)
    ∧ (rtc_irqs c (d / 977 + 1) m0).mem = (fun s o =>
          if s = wait_segment m0 ∧ o = wait_offset m0
          then (m0.mem (wait_segment m0) (wait_offset m0) % 256 ||| 0x80) % 256
          else m0.mem s o) := by
  have hstep : ∀ k, rtc_irqs c (k + 1) m0
      = handle_70 { rtc_irqs c k m0 with irq_flags := c k } := fun _ => rfl
  have hsteps : ∀ k, k ≤ d / 977 →
      (rtc_irqs c k m0).bda = { m0.bda with user_wait_timeout := d - 977 * k }
        ∧ (rtc_irqs c k m0).cmos = m0.cmos
        ∧ (rtc_irqs c k m0).mem = m0.mem := by
    intro k
    induction k with
    | zero =>
      intro _
      subst hd
      exact ⟨rfl, rfl, rfl⟩
    | succ k ih =>
      intro hk
      obtain ⟨hb, hcm, hm⟩ := ih (by omega)
      have h1 : 977 * (k + 1) ≤ d := by omega
      have h2 : (d - 977 * k) % 4294967296 = d - 977 * k :=
        Nat.mod_eq_of_lt (by omega)
      obtain ⟨hb2, hc2, hm2⟩ := handle_70_continue { rtc_irqs c k m0 with irq_flags := c k }
        (by show (rtc_irqs c k m0).cmos CMOS_STATUS_B % 256 &&& 0x60 ≠ 0
            rw [hcm]; exact hB)
        (hc k)
        (by show (rtc_irqs c k m0).bda.rtc_wait_flag % 256 ≠ 0
            rw [hb]; exact hW)
        (by show 977 ≤ (rtc_irqs c k m0).bda.user_wait_timeout % 4294967296
            rw [hb]
            show 977 ≤ (d - 977 * k) % 4294967296
            rw [h2]
            omega)
      have hb3 : ({ rtc_irqs c k m0 with irq_flags := c k } : Machine).bda
          = { m0.bda with user_wait_timeout := d - 977 * k } := hb
      rw [hstep]
      refine ⟨?_, hc2.trans hcm, hm2.trans hm⟩
      rw [hb2, hb3]
      have he : (d - 977 * k) % 4294967296 - 977 = d - 977 * (k + 1) := by
        rw [h2]
        omega
      simp only [he]
  obtain ⟨hb, hcm, hm⟩ := hsteps (d / 977) (le_refl _)
  have h2 : (d - 977 * (d / 977)) % 4294967296 = d - 977 * (d / 977) :=
    Nat.mod_eq_of_lt (by omega)
  obtain ⟨hb2, hc2, hm2⟩ :=
    handle_70_complete { rtc_irqs c (d / 977) m0 with irq_flags := c (d / 977) }
      (by show (rtc_irqs c (d / 977) m0).cmos CMOS_STATUS_B % 256 &&& 0x60 ≠ 0
          rw [hcm]; exact hB)
      (hc (d / 977))
      (by show (rtc_irqs c (d / 977) m0).bda.rtc_wait_flag % 256 ≠ 0
          rw [hb]; exact hW)
      (by show (rtc_irqs c (d / 977) m0).bda.user_wait_timeout % 4294967296 < 977
          rw [hb]
          show (d - 977 * (d / 977)) % 4294967296 < 977
          rw [h2]
          omega)
  have hb3 : ({ rtc_irqs c (d / 977) m0 with irq_flags := c (d / 977) } : Machine).bda
      = { m0.bda with user_wait_timeout := d - 977 * (d / 977) } := hb
  have hc3 : ({ rtc_irqs c (d / 977) m0 with irq_flags := c (d / 977) } : Machine).cmos
      = m0.cmos := hcm
  have hm3 : ({ rtc_irqs c (d / 977) m0 with irq_flags := c (d / 977) } : Machine).mem
      = m0.mem := hm
  have hseg : wait_segment { rtc_irqs c (d / 977) m0 with irq_flags := c (d / 977) }
      = wait_segment m0 := by
    show wait_segment (rtc_irqs c (d / 977) m0) = wait_segment m0
    simp only [wait_segment, hb]
  have hoff : wait_offset { rtc_irqs c (d / 977) m0 with irq_flags := c (d / 977) }
      = wait_offset m0 := by
    show wait_offset (rtc_irqs c (d / 977) m0) = wait_offset m0
    simp only [wait_offset, hb]
  refine ⟨hsteps, ?_, ?_, ?_⟩
  · rw [hstep, hb2, hb3]
  · rw [hstep, hc2, hc3]
  · rw [hstep, hm2, hseg, hoff, hm3]

/-- The state `set_usertimer` leaves when no wait was pending. -/
theorem set_usertimer_registered (usecs seg offset : Nat) (m : Machine)
    (hN : ¬ wait_pending m) :
    (set_usertimer usecs seg offset m).2.bda = { m.bda with
        rtc_wait_flag := 1
        ptr_user_wait_complete_flag :=
          ((seg % 65536) * 65536 ||| (offset % 65536)) % 4294967296
        user_wait_timeout := usecs % 4294967296 }
    ∧ (set_usertimer usecs seg offset m).2.cmos = (fun r => if r = CMOS_STATUS_B
          then (m.cmos CMOS_STATUS_B % 256 ||| 0x40) % 256 else m.cmos r)
    ∧ (set_usertimer usecs seg offset m).2.mem = m.mem := by
  have hp : ¬ (m.bda.rtc_wait_flag % 256 &&& RWS_WAIT_PENDING ≠ 0) := hN
  simp only [set_usertimer, if_neg hp]
  exact ⟨rfl, rfl, rfl⟩

theorem byte_registered : ∀ x < 256,
    ((x ||| 0x40) % 256) % 256 &&& 0x60 ≠ 0
    ∧ ((x ||| 0x40) % 256) % 256 &&& 0x40 ≠ 0
    ∧ (((x ||| 0x40) % 256) % 256 &&& 0xFFFFFFBF) % 256 % 256 &&& 0x40 = 0 := by
  decide

/-- C18: a wait of `d` microseconds registered by `set_usertimer`, followed by
RTC interrupts and nothing else, the periodic source having fired anew before
each of them: interrupt number `k` finds the flags `c k`, with the
periodic-fired bit, latched in Status C, which its run of `handle_70` reads
and thereby clears.  After each of the first `d / 977` runs (and before the
first) the wait is still pending, the periodic interrupt still enabled, memory
unwritten and `user_wait_timeout = d - 977 * k`, where `977 * k ≤ d`, so
nothing underflows.  The run number `d / 977 + 1` ORs 0x80 into the target
byte, writes no other byte, zeroes `rtc_wait_flag` and clears the
periodic-enable bit.  A run for which the source has not fired anew changes
none of this. -/
theorem wait_completes_on_run (m : Machine) (d seg offset : Nat) (c : Nat → Nat)
    (hd : d < 4294967296) (hseg : seg < 65536) (hoff : offset < 65536)
    (hN : ¬ wait_pending m) (hc : ∀ k, c k % 256 &&& 0x40 ≠ 0) :
    (∀ k, k ≤ d / 977 →
      wait_pending (rtc_irqs c k (set_usertimer d seg offset m).2)
        ∧ statusB (rtc_irqs c k (set_usertimer d seg offset m).2) &&& RTC_B_PIE ≠ 0
        ∧ 977 * k ≤ d
        ∧ (rtc_irqs c k (set_usertimer d seg offset m).2).bda.user_wait_timeout
            = d - 977 * k
        ∧ (rtc_irqs c k (set_usertimer d seg offset m).2).mem = m.mem)
    ∧ (rtc_irqs c (d / 977 + 1) (set_usertimer d seg offset m).2).bda.rtc_wait_flag = 0
    ∧ ¬ wait_pending (rtc_irqs c (d / 977 + 1) (set_usertimer d seg offset m).2)
    ∧ statusB (rtc_irqs c (d / 977 + 1) (set_usertimer d seg offset m).2) &&& RTC_B_PIE = 0
    ∧ (rtc_irqs c (d / 977 + 1) (set_usertimer d seg offset m).2).mem seg offset
        = GET_FARVAR seg offset m ||| 0x80
    ∧ (∀ s o, ¬ (s = seg ∧ o = offset) →
        (rtc_irqs c (d / 977 + 1) (set_usertimer d seg offset m).2).mem s o = m.mem s o)
    ∧ (∀ k, (rtc_irqs c (k + 1) (set_usertimer d seg offset m).2).irq_flags = 0
        ∧ (handle_70 (rtc_irqs c (k + 1) (set_usertimer d seg offset m).2)).bda
            = (rtc_irqs c (k + 1) (set_usertimer d seg offset m).2).bda
        ∧ (handle_70 (rtc_irqs c (k + 1) (set_usertimer d seg offset m).2)).mem
            = (rtc_irqs c (k + 1) (set_usertimer d seg offset m).2).mem) := by
  obtain ⟨hb0, hc0, hm0⟩ := set_usertimer_registered d seg offset m hN
  obtain ⟨b1, b2, b3⟩ := byte_registered (m.cmos CMOS_STATUS_B % 256) (mod_byte_lt _)
  have hd' : d % 4294967296 = d := Nat.mod_eq_of_lt hd
  obtain ⟨_, hsg, hof⟩ := segoff_decode seg offset hseg hoff
  have hws : wait_segment (set_usertimer d seg offset m).2 = seg := by
    simp only [wait_segment, hb0, Nat.mod_mod, Nat.mod_eq_of_lt hseg, Nat.mod_eq_of_lt hoff]
    exact hsg
  have hwo : wait_offset (set_usertimer d seg offset m).2 = offset := by
    simp only [wait_offset, hb0, Nat.mod_mod, Nat.mod_eq_of_lt hseg, Nat.mod_eq_of_lt hoff]
    exact hof
  obtain ⟨hsteps, hfb, hfc, hfm⟩ := rtc_irqs_countdown c (set_usertimer d seg offset m).2 d
    (by rw [hc0]; exact b1) hc
    (by rw [hb0]; show (1 : Nat) % 256 ≠ 0; decide)
    (by rw [hb0]; exact hd') hd
  have hold := byte_or_80 (m.mem seg offset % 256) (mod_byte_lt _)
  refine ⟨?_, ?_, ?_, ?_, ?_, ?_, ?_⟩
  · intro k hk
    obtain ⟨hb, hcm, hm⟩ := hsteps k hk
    refine ⟨?_, ?_, by omega, ?_, ?_⟩
    · unfold wait_pending
      rw [hb, hb0]
      show (1 : Nat) % 256 &&& RWS_WAIT_PENDING ≠ 0
      decide
    · simp only [statusB, inb_cmos, hcm, hc0, RTC_B_PIE]
      exact b2
    · rw [hb]
    · rw [hm, hm0]
  · rw [hfb]
  · unfold wait_pending
    rw [hfb]
    show ¬ ((0 : Nat) % 256 &&& RWS_WAIT_PENDING ≠ 0)
    decide
  · simp only [statusB, inb_cmos, hfc, hc0, RTC_B_PIE]
    exact b3
  · rw [hfm, hws, hwo, hm0]
    simp only [GET_FARVAR, and_self, if_true]
    exact hold.1
  · intro s o hso
    rw [hfm, hws, hwo, hm0]
    simp only [hso, if_false]
  · intro k
    have h0 : (rtc_irqs c (k + 1) (set_usertimer d seg offset m).2).irq_flags = 0 :=
      handle_70_reads_flags _
    have hn := handle_70_no_flag _ h0
    exact ⟨h0, hn.1, hn.2.2⟩

/-- Witness of C18: a wait of 2000 microseconds is still pending after two
interrupts, with 46 microseconds left, and completes on the third. -/
theorem wait_completes_on_run_witness :
    (2000 < 4294967296 ∧ 0x40 < 65536 ∧ 0x10 < 65536
      ∧ ¬ wait_pending (sampleIrq 0x02 0x00 0 0)
      ∧ ∀ k : Nat, (fun _ : Nat => 0x40) k % 256 &&& 0x40 ≠ 0)
    ∧ (wait_pending (rtc_irqs (fun _ => 0x40) 2
          (set_usertimer 2000 0x40 0x10 (sampleIrq 0x02 0x00 0 0)).2)
      ∧ (rtc_irqs (fun _ => 0x40) 2 (set_usertimer 2000 0x40 0x10
            (sampleIrq 0x02 0x00 0 0)).2).bda.user_wait_timeout = 2000 - 977 * 2)
    ∧ (rtc_irqs (fun _ => 0x40) (2000 / 977 + 1) (set_usertimer 2000 0x40 0x10
          (sampleIrq 0x02 0x00 0 0)).2).bda.rtc_wait_flag = 0
    ∧ (rtc_irqs (fun _ => 0x40) (2000 / 977 + 1) (set_usertimer 2000 0x40 0x10
          (sampleIrq 0x02 0x00 0 0)).2).mem 0x40 0x10
        = GET_FARVAR 0x40 0x10 (sampleIrq 0x02 0x00 0 0) ||| 0x80 :=
  have hc : ∀ k : Nat, (fun _ : Nat => 0x40) k % 256 &&& 0x40 ≠ 0 := fun _ => by
    show (0x40 : Nat) % 256 &&& 0x40 ≠ 0
    decide
  have h := wait_completes_on_run (sampleIrq 0x02 0x00 0 0) 2000 0x40 0x10 (fun _ => 0x40)
    (by decide) (by decide) (by decide) (by decide) hc
  ⟨⟨by decide, by decide, by decide, by decide, hc⟩,
    ⟨(h.1 2 (by decide)).1, (h.1 2 (by decide)).2.2.2.1⟩, h.2.1, h.2.2.2.2.1⟩

end Clock
